import Mathlib

set_option maxRecDepth 40000

/-!
Verification development for the Khabar AI supply-chain risk monitor.

The definitions below are a shallow embedding of the Python sources:
  app/models.py, app/action_layer/alert_manager.py,
  app/action_layer/notifiers.py, app/agents/triage_agent.py,
  app/agents/analyst_agent.py, app/agents/knowledge_graph.py,
  app/main.py.

Conventions used throughout the embedding:
  * Machine integers are modelled as Nat with explicit reduction
    modulo 2 ^ 32 where the source relies on 32-bit wraparound
    (the SHA-256 hash used for headline fingerprints).
  * Timestamps are modelled as Int, counted in seconds; the 24 hour
    dedup window of alert_manager.py becomes the constant 24 * 3600.
  * Confidence scores and stock percentages (Python float) are
    modelled as rationals; every concrete value appearing in the
    sources is exact in that representation.
  * Database sessions are modelled by an explicit record of table
    rows; a commit that would violate a declared UNIQUE constraint
    is modelled as an Except.error, mirroring the IntegrityError
    that SQLAlchemy raises.
  * External HTTP calls (news feed, Groq chat completions) are
    modelled by an explicit outcome parameter: the embedding of a
    function that performs such a call takes the outcome of the call
    as an argument and processes it exactly as the source does.
-/

namespace Khabar

/-! ## SHA-256 (hashlib.sha256(...).hexdigest())

models.py computes the dedup fingerprint as the SHA-256 hex digest of
the normalised headline.  The hash is embedded here in full, over the
UTF-8 bytes of the input, with 32-bit words represented as Nat modulo
2 ^ 32. -/

/-- Reduce a natural number to a 32-bit word. -/
def w32 (n : Nat) : Nat := n % 4294967296

/-- Rotate a 32-bit word right by n bits. -/
def spin32 (x n : Nat) : Nat := w32 ((x >>> n) + (x <<< (32 - n)))

/-- Bitwise complement of a 32-bit word. -/
def notW (x : Nat) : Nat := 4294967295 - w32 x

/-- SHA-256 choice function. -/
def chW (x y z : Nat) : Nat := (x &&& y) ^^^ (notW x &&& z)

/-- SHA-256 majority function. -/
def majW (x y z : Nat) : Nat := (x &&& y) ^^^ (x &&& z) ^^^ (y &&& z)

/-- SHA-256 big sigma 0. -/
def sumA (x : Nat) : Nat := spin32 x 2 ^^^ spin32 x 13 ^^^ spin32 x 22

/-- SHA-256 big sigma 1. -/
def sumE (x : Nat) : Nat := spin32 x 6 ^^^ spin32 x 11 ^^^ spin32 x 25

/-- SHA-256 small sigma 0. -/
def sigLo (x : Nat) : Nat := spin32 x 7 ^^^ spin32 x 18 ^^^ (x >>> 3)

/-- SHA-256 small sigma 1. -/
def sigHi (x : Nat) : Nat := spin32 x 17 ^^^ spin32 x 19 ^^^ (x >>> 10)

/-- The 64 SHA-256 round constants. -/
def sha256K : List Nat :=
  [1116352408, 1899447441, 3049323471, 3921009573, 961987163,
   1508970993, 2453635748, 2870763221, 3624381080, 310598401,
   607225278, 1426881987, 1925078388, 2162078206, 2614888103,
   3248222580, 3835390401, 4022224774, 264347078, 604807628,
   770255983, 1249150122, 1555081692, 1996064986, 2554220882,
   2821834349, 2952996808, 3210313671, 3336571891, 3584528711,
   113926993, 338241895, 666307205, 773529912, 1294757372,
   1396182291, 1695183700, 1986661051, 2177026350, 2456956037,
   2730485921, 2820302411, 3259730800, 3345764771, 3516065817,
   3600352804, 4094571909, 275423344, 430227734, 506948616,
   659060556, 883997877, 958139571, 1322822218, 1537002063,
   1747873779, 1955562222, 2024104815, 2227730452, 2361852424,
   2428436474, 2756734187, 3204031479, 3329325298]

/-- Working state of the SHA-256 compression function: eight 32-bit words. -/
structure Sha256State where
  a : Nat
  b : Nat
  c : Nat
  d : Nat
  e : Nat
  f : Nat
  g : Nat
  h : Nat
deriving Repr, DecidableEq

/-- Initial SHA-256 hash value. -/
def sha256Init : Sha256State :=
  ⟨1779033703, 3144134277, 1013904242, 2773480762, 1359893119, 2600822924, 528734635, 1541459225⟩

/-- One SHA-256 round, combining the state with the pair of a round
constant and a message-schedule word. -/
def sha256Round (s : Sha256State) (kw : Nat × Nat) : Sha256State :=
  let t1 := w32 (s.h + sumE s.e + chW s.e s.f s.g + kw.1 + kw.2)
  let t2 := w32 (sumA s.a + majW s.a s.b s.c)
  ⟨w32 (t1 + t2), s.a, s.b, s.c, w32 (s.d + t1), s.e, s.f, s.g⟩

/-- Extend the 16 block words to the 64-entry message schedule,
appending one word per unit of fuel. -/
def sha256Extend (ws : List Nat) : Nat → List Nat
  | 0 => ws
  | n + 1 =>
      let k := ws.length
      let w := w32 (sigHi (ws.getD (k - 2) 0) + ws.getD (k - 7) 0 +
                    sigLo (ws.getD (k - 15) 0) + ws.getD (k - 16) 0)
      sha256Extend (ws ++ [w]) n

/-- Read one big-endian 32-bit word from a byte list. -/
def beWord (bytes : List Nat) (i : Nat) : Nat :=
  bytes.getD (4 * i) 0 * 16777216 + bytes.getD (4 * i + 1) 0 * 65536 +
  bytes.getD (4 * i + 2) 0 * 256 + bytes.getD (4 * i + 3) 0

/-- Compress one 64-byte block into the running hash value. -/
def sha256Block (h0 : Sha256State) (block : List Nat) : Sha256State :=
  let ws16 := (List.range 16).map (beWord block)
  let ws := sha256Extend ws16 48
  let s := (sha256K.zip ws).foldl sha256Round h0
  ⟨w32 (h0.a + s.a), w32 (h0.b + s.b), w32 (h0.c + s.c), w32 (h0.d + s.d),
   w32 (h0.e + s.e), w32 (h0.f + s.f), w32 (h0.g + s.g), w32 (h0.h + s.h)⟩

/-- Process n consecutive 64-byte blocks of the padded message. -/
def sha256Blocks (h : Sha256State) (bytes : List Nat) : Nat → Sha256State
  | 0 => h
  | n + 1 => sha256Blocks (sha256Block h (bytes.take 64)) (bytes.drop 64) n

/-- SHA-256 message padding: a 0x80 byte, zeros, and the 64-bit
big-endian bit length, to a multiple of 64 bytes. -/
def sha256Pad (msg : List Nat) : List Nat :=
  let len := msg.length
  let zeros := (64 - (len + 9) % 64) % 64
  let bitLen := len * 8
  msg ++ [128] ++ List.replicate zeros 0 ++
    (List.range 8).map (fun i => (bitLen >>> ((7 - i) * 8)) % 256)

/-- Render a 32-bit word as 8 lowercase hex digits. -/
def hexWord (n : Nat) : String :=
  String.mk ((List.range 8).map (fun i => Nat.digitChar ((n >>> ((7 - i) * 4)) % 16)))

/-- SHA-256 hex digest of a byte list. -/
def sha256Hex (msg : List Nat) : String :=
  let padded := sha256Pad msg
  let s := sha256Blocks sha256Init padded (padded.length / 64)
  hexWord s.a ++ hexWord s.b ++ hexWord s.c ++ hexWord s.d ++
  hexWord s.e ++ hexWord s.f ++ hexWord s.g ++ hexWord s.h

/-- UTF-8 encoding of one character, as natural numbers. -/
def utf8EncodeCharNat (c : Char) : List Nat :=
  let n := c.toNat
  if n < 128 then [n]
  else if n < 2048 then [192 + n / 64, 128 + n % 64]
  else if n < 65536 then [224 + n / 4096, 128 + (n / 64) % 64, 128 + n % 64]
  else [240 + n / 262144, 128 + (n / 4096) % 64, 128 + (n / 64) % 64, 128 + n % 64]

/-- UTF-8 bytes of a string, as natural numbers. -/
def utf8Bytes (s : String) : List Nat :=
  s.data.flatMap utf8EncodeCharNat

/-! ## Python string primitives

The sources normalise text with str.strip, str.lower, str.upper,
str.startswith and slicing.  These are modelled over the character
list of the string; case mapping follows the ASCII range, which
covers every string the pipeline normalises. -/

/-- The whitespace characters stripped by Python str.strip. -/
def isSpaceChar (c : Char) : Bool :=
  c == ' ' || c == '\t' || c == '\n' || c == '\r' || c == '\x0b' || c == '\x0c'

/-- Python str.strip with no argument: drop leading and trailing
whitespace. -/
def pyStrip (s : String) : String :=
  String.mk (((s.data.dropWhile isSpaceChar).reverse.dropWhile isSpaceChar).reverse)

/-- Python str.lower (ASCII range). -/
def pyLower (s : String) : String := String.mk (s.data.map Char.toLower)

/-- Python str.upper (ASCII range). -/
def pyUpper (s : String) : String := String.mk (s.data.map Char.toUpper)

/-- Python str.startswith. -/
def pyStartsWith (s pre : String) : Bool := pre.data.isPrefixOf s.data

/-- Python slicing s[:n], counted in characters. -/
def pyTake (s : String) (n : Nat) : String := String.mk (s.data.take n)

/-! ## Data model (app/models.py)

Rows of the three ORM tables.  Nullable columns become Option fields;
the `mitigation_strategies` column stores `json.dumps` of a list of
strings and is modelled as the list itself.  Timestamps are seconds
as Int. -/

/-- Row of the risk_events table (models.py, class RiskEvent). -/
structure RiskEvent where
  id : Nat
  company_name : String
  event_type : String
  severity : String
  headline : String
  headline_hash : String
  source_url : Option String
  stock_impact : Option ℚ
  weather_correlation : Option String
  ai_reasoning : Option String
  impact_estimate : Option String
  mitigation_strategies : List String
  confidence_score : Option ℚ
  created_at : Int
  is_notified : Bool
deriving Repr, DecidableEq

/-- SHA-256 of the lowered, stripped headline
(models.py, RiskEvent.compute_headline_hash).  The Python source
normalises with str.strip then str.lower before hashing the UTF-8
encoding. -/
def RiskEvent.compute_headline_hash (headline : String) : String :=
  let normalised := pyLower (pyStrip headline)
  sha256Hex (utf8Bytes normalised)

/-- Row of the alert_history table (models.py, class AlertHistory). -/
structure AlertHistory where
  id : Nat
  risk_event_id : Nat
  alert_channel : String
  sent_at : Int
  status : String
deriving Repr, DecidableEq

/-- Row of the knowledge_graph_edges table
(models.py, class KnowledgeGraphEdge). -/
structure KnowledgeGraphEdge where
  source_node : String
  target_node : String
  relationship_type : String
  company : String
  confidence_score : ℚ
deriving Repr, DecidableEq

/-- The database session state: the rows of the three tables plus the
autoincrement counters for the two integer primary keys used by the
pipeline. -/
structure DB where
  events : List RiskEvent
  alerts : List AlertHistory
  kg_edges : List KnowledgeGraphEdge
  nextEventId : Nat
  nextAlertId : Nat
deriving Repr, DecidableEq

/-- The empty database, as produced by init_db on a fresh file. -/
def DB.empty : DB := ⟨[], [], [], 1, 1⟩

/-! ## Analyst agent (app/agents/analyst_agent.py)

The external chat-completion exchange is modelled by an outcome
parameter: either the transport failed (HTTP error, timeout, or any
other exception up to and including json.loads failure), or it
produced a decoded JSON object with the five expected fields.  A
response whose JSON cannot be decoded into those fields at the
expected types is part of the failure case, since pydantic raises on
it and the source catches every exception in one handler. -/

/-- Validated risk assessment (analyst_agent.py, class RiskAssessment). -/
structure RiskAssessment where
  severity : String
  impact_estimate : String
  reasoning : String
  mitigation_strategies : List String
  confidence_score : ℚ
deriving Repr, DecidableEq

/-- The raw decoded JSON fields, before pydantic validation. -/
structure RawAssessment where
  severity : String
  impact_estimate : String
  reasoning : String
  mitigation_strategies : List String
  confidence_score : ℚ
deriving Repr, DecidableEq

/-- Pydantic validation of a decoded assessment: the severity field is
stripped and upper-cased by the normalise_severity field validator
(mode before), then must match the pattern RED, YELLOW or GREEN; the
mitigation list must have length at least 1; the confidence score
must lie in the interval from 0 to 100. -/
def RiskAssessment.validate (raw : RawAssessment) : Option RiskAssessment :=
  let sev := pyUpper (pyStrip raw.severity)
  if (sev == "RED" || sev == "YELLOW" || sev == "GREEN")
      && decide (1 ≤ raw.mitigation_strategies.length)
      && decide (0 ≤ raw.confidence_score)
      && decide (raw.confidence_score ≤ 100) then
    some ⟨sev, raw.impact_estimate, raw.reasoning,
          raw.mitigation_strategies, raw.confidence_score⟩
  else
    none

/-- Outcome of the analyst chat-completion call. -/
inductive AnalystOutcome where
  /-- HTTP 200 and json.loads produced an object with the five
  expected fields at the expected types. -/
  | response (decoded : RawAssessment)
  /-- Transport error, HTTP error status, json.loads failure, or a
  response that does not decode to the expected field types; all of
  these raise inside the try block of analyse_risk. -/
  | failure (msg : String)
deriving Repr, DecidableEq

/-- The conservative fallback assessment built in the exception
handler of analyse_risk (analyst_agent.py lines 206 to 219). -/
def fallbackAssessment (msg : String) : RiskAssessment :=
  { severity := "YELLOW"
    impact_estimate := "Unable to fully assess — manual review recommended."
    reasoning := "Automated analysis encountered an error: " ++ msg
    mitigation_strategies :=
      ["Escalate to human analyst for manual review.",
       "Monitor news feed for follow-up developments.",
       "Review supply-chain contingency plans."]
    confidence_score := 20 }

/-- Run the Analyst Agent on a set of correlated signals
(analyst_agent.py, analyse_risk), on the live path: the dry-run
branch (settings.dry_run or a missing API key, lines 147 to 149)
performs no external call and is outside the scope of this model.
The eight signal inputs only feed the prompt template; the returned
assessment is determined by the call outcome. -/
def analyse_risk (company_name node_location node_type headline summary : String)
    (volatility : ℚ) (weather_description weather_severity : String)
    (call : AnalystOutcome) : RiskAssessment :=
  match call with
  | .failure msg => fallbackAssessment msg
  | .response raw =>
      match RiskAssessment.validate raw with
      | some assessment => assessment
      | none => fallbackAssessment "1 validation error for RiskAssessment"

/-- The mock assessment returned on the dry-run branch
(analyst_agent.py, MOCK_ASSESSMENT). -/
def mockAssessment : RiskAssessment :=
  { severity := "YELLOW"
    impact_estimate := "Potential 5-10% revenue impact over next quarter if disruption persists."
    reasoning := "The news headline indicates a moderate supply-chain concern. Stock movement is within normal range, and weather conditions do not exacerbate the situation. Monitor closely."
    mitigation_strategies :=
      ["Engage secondary supplier for critical components.",
       "Increase safety stock at regional distribution centres.",
       "Activate business continuity communication plan with key stakeholders."]
    confidence_score := 62 }

/-! ## Triage agent (app/agents/triage_agent.py)

Same modelling convention: the Groq call outcome is a parameter.  The
dry-run branch (lines 83 to 90) uses an MD5-based pseudo-random
filter and performs no external call; it is outside the scope of this
model, which covers the live path (lines 92 to 144). -/

/-- Outcome of the triage chat-completion call. -/
inductive TriageOutcome where
  /-- HTTP 200; content is the extracted message content, already
  defaulted to the empty string when the JSON lacks the field. -/
  | response (content : String)
  /-- raise_for_status threw httpx.HTTPStatusError. -/
  | httpStatusError (status : Nat) (text : String)
  /-- Any other exception (timeout, connection error, bad JSON). -/
  | otherError (msg : String)
deriving Repr, DecidableEq

/-- Ask the Triage Agent whether the headline is relevant
(triage_agent.py, triage_article, live path).  On a successful
response the answer is stripped, upper-cased and tested for the
prefix YES; on an HTTP status error or any other exception the
article is let through (fail-open). -/
def triage_article (company_name headline summary : String)
    (call : TriageOutcome) : Bool :=
  match call with
  | .response content => pyStartsWith (pyUpper (pyStrip content)) "YES"
  | .httpStatusError _ _ => true
  | .otherError _ => true

/-! ## Alert manager (app/action_layer/alert_manager.py) -/

/-- Deduplicate and store a risk event (alert_manager.py,
store_risk_event).  Returns the updated session and the persisted
event, or none if it was a duplicate.  The dedup pre-check looks for
the same headline hash within the trailing 24 hour window; the
subsequent commit enforces the UNIQUE constraint that models.py
declares on the headline_hash column over the whole table, so an
insert whose hash matches a row outside the window raises
IntegrityError, modelled as Except.error. -/
def store_risk_event (db : DB) (now : Int) (company_name headline source_url : String)
    (stock_impact : Option ℚ) (weather_correlation : Option String)
    (assessment : RiskAssessment) (event_type : String := "supply_chain") :
    Except String (DB × Option RiskEvent) :=
  let headline_hash := RiskEvent.compute_headline_hash headline
  let cutoff := now - 24 * 3600
  let existing := db.events.find? (fun e =>
    e.headline_hash == headline_hash && decide (cutoff ≤ e.created_at))
  match existing with
  | some _ => .ok (db, none)
  | none =>
      if db.events.any (fun e => e.headline_hash == headline_hash) then
        .error "IntegrityError: UNIQUE constraint failed: risk_events.headline_hash"
      else
        let event : RiskEvent :=
          { id := db.nextEventId
            company_name := company_name
            event_type := event_type
            severity := assessment.severity
            headline := headline
            headline_hash := headline_hash
            source_url := some source_url
            stock_impact := stock_impact
            weather_correlation := weather_correlation
            ai_reasoning := some assessment.reasoning
            impact_estimate := some assessment.impact_estimate
            mitigation_strategies := assessment.mitigation_strategies
            confidence_score := some assessment.confidence_score
            created_at := now
            is_notified := false }
        .ok ({ db with events := db.events ++ [event],
                       nextEventId := db.nextEventId + 1 }, some event)

/-- RED-severity events trigger immediate notification
(alert_manager.py, should_notify_immediately). -/
def should_notify_immediately (event : RiskEvent) : Bool :=
  event.severity == "RED"

/-- Write an audit record after dispatching a notification
(alert_manager.py, record_alert). -/
def record_alert (db : DB) (now : Int) (risk_event_id : Nat) (channel : String)
    (status : String := "sent") : DB × AlertHistory :=
  let alert : AlertHistory :=
    { id := db.nextAlertId
      risk_event_id := risk_event_id
      alert_channel := channel
      sent_at := now
      status := status }
  ({ db with alerts := db.alerts ++ [alert], nextAlertId := db.nextAlertId + 1 },
   alert)

/-- Flag the event so it is not re-notified on the next run
(alert_manager.py, mark_notified). -/
def mark_notified (db : DB) (event : RiskEvent) : DB :=
  { db with events := db.events.map (fun e =>
      if e.id = event.id then { e with is_notified := true } else e) }

/-! ## Notifiers (app/action_layer/notifiers.py) -/

/-- Print a formatted alert to stdout (notifiers.py, send_console).
The printing itself is I/O with no effect on the store; the function
unconditionally reports success. -/
def send_console (event : RiskEvent) : Bool := true

/-- Send the alert through all configured channels (notifiers.py,
dispatch_alert).  The console channel is the only configured one; the
returned list holds the channels whose dispatch succeeded. -/
def dispatch_alert (event : RiskEvent) : List String :=
  if send_console event then ["console"] else []

/-! ## Knowledge graph (app/agents/knowledge_graph.py)

The in-memory networkx DiGraph is modelled as an association list of
nodes (name to attribute record) and a list of directed edges keyed
by the (source, target) pair, carrying the relationship attribute.
networkx semantics embedded here: re-adding an existing node updates
the given attributes and preserves the others; re-adding an existing
edge updates its attributes; adding an edge inserts missing endpoint
nodes without attributes. -/

/-- Attributes attached to a graph node; absent attributes are none. -/
structure NodeAttrs where
  type : Option String
  severity : Option String
deriving Repr, DecidableEq

/-- A directed edge with its relationship attribute. -/
structure GEdge where
  src : String
  tgt : String
  relationship : String
deriving Repr, DecidableEq

/-- In-memory directed graph of supply-chain relationships
(knowledge_graph.py, class SupplyChainGraph). -/
structure SupplyChainGraph where
  nodes : List (String × NodeAttrs)
  edges : List GEdge
deriving Repr, DecidableEq

namespace SupplyChainGraph

/-- The graph constructed by the SupplyChainGraph initialiser. -/
def empty : SupplyChainGraph := ⟨[], []⟩

/-- The node name list, in insertion order. -/
def nodeKeys (g : SupplyChainGraph) : List String := g.nodes.map Prod.fst

/-- The edge key list: (source, target) pairs in insertion order. -/
def edgeKeys (g : SupplyChainGraph) : List (String × String) :=
  g.edges.map (fun e => (e.src, e.tgt))

/-- graph.add_node(name, type=ty): update the type attribute of an
existing node, preserving its other attributes, or append a fresh
node. -/
def addNodeType (g : SupplyChainGraph) (name ty : String) : SupplyChainGraph :=
  if g.nodes.any (fun p => p.1 == name) then
    { g with nodes := g.nodes.map (fun p =>
        if p.1 == name then (p.1, { p.2 with type := some ty }) else p) }
  else
    { g with nodes := g.nodes ++ [(name, ⟨some ty, none⟩)] }

/-- graph.add_node(name, type=ty, severity=sev), as used by add_event:
both attributes are written. -/
def addNodeTypeSeverity (g : SupplyChainGraph) (name ty sev : String) :
    SupplyChainGraph :=
  if g.nodes.any (fun p => p.1 == name) then
    { g with nodes := g.nodes.map (fun p =>
        if p.1 == name then (p.1, ⟨some ty, some sev⟩) else p) }
  else
    { g with nodes := g.nodes ++ [(name, ⟨some ty, some sev⟩)] }

/-- Insert a node with no attributes when absent; networkx does this
for the endpoints of a new edge. -/
def ensureNode (g : SupplyChainGraph) (name : String) : SupplyChainGraph :=
  if g.nodes.any (fun p => p.1 == name) then g
  else { g with nodes := g.nodes ++ [(name, ⟨none, none⟩)] }

/-- graph.add_edge(u, v, relationship=rel): missing endpoints are
inserted bare; an existing (u, v) edge has its relationship attribute
overwritten, otherwise the edge is appended. -/
def add_edge (g : SupplyChainGraph) (u v rel : String) : SupplyChainGraph :=
  let g := ensureNode g u
  let g := ensureNode g v
  if g.edges.any (fun e => e.src == u && e.tgt == v) then
    { g with edges := g.edges.map (fun e =>
        if e.src == u && e.tgt == v then { e with relationship := rel } else e) }
  else
    { g with edges := g.edges ++ [⟨u, v, rel⟩] }

end SupplyChainGraph

/-- A supply-chain node from the parsed companies.yaml configuration
(config.py).  The type field holds the dict entry under the key
named type. -/
structure SupplyNode where
  entity : String
  location : String
  type : String
  coordinates : List ℚ
deriving Repr, DecidableEq

/-- A company entry from the parsed configuration. -/
structure Company where
  name : String
  ticker : String
  risk_keywords : List String
  supply_chain_nodes : List SupplyNode
deriving Repr, DecidableEq

namespace SupplyChainGraph

/-- The per-company step of build_from_config: add the company node,
then for each supply-chain node add the supplier and location nodes
and the two edges location to supplier (manufactures_at) and supplier
to company (supplies). -/
def addCompanyTopology (g : SupplyChainGraph) (company : Company) :
    SupplyChainGraph :=
  let g := addNodeType g company.name "company"
  company.supply_chain_nodes.foldl (fun g node =>
    let g := addNodeType g node.entity "supplier"
    let g := addNodeType g node.location "location"
    let g := add_edge g node.location node.entity
      ("manufactures_at (" ++ node.type ++ ")")
    add_edge g node.entity company.name "supplies") g

/-- Populate the graph from the parsed configuration
(knowledge_graph.py, build_from_config). -/
def build_from_config (g : SupplyChainGraph) (companies : List Company) :
    SupplyChainGraph :=
  companies.foldl addCompanyTopology g

/-- Attach an event node to its location (knowledge_graph.py,
add_event): the event node carries type and severity attributes, and
the edge event to location is labelled affects. -/
def add_event (g : SupplyChainGraph) (event_label location : String)
    (event_type : String := "event") (severity : String := "") :
    SupplyChainGraph :=
  let g := addNodeTypeSeverity g event_label event_type severity
  add_edge g event_label location "affects"

/-- The uniqueness key of the uq_edge constraint
(models.py, KnowledgeGraphEdge table args). -/
def rowKey (r : KnowledgeGraphEdge) : String × String × String × String :=
  (r.source_node, r.target_node, r.relationship_type, r.company)

/-- Upsert all edges of the graph into the database tagged with the
given company (knowledge_graph.py, persist_edges).  The loop checks
each edge against the committed rows only (the session has autoflush
disabled), skips those already present under the
(source, target, relation, company) key, and stages the rest; the
final commit enforces the uq_edge UNIQUE constraint, so staging two
rows with the same key would raise IntegrityError.  Returns the
number of edges written. -/
def persist_edges (db : DB) (g : SupplyChainGraph) (company_name : String) :
    Except String (DB × Nat) :=
  let step := fun (acc : List KnowledgeGraphEdge × Nat) (e : GEdge) =>
    if db.kg_edges.any (fun row =>
        row.source_node == e.src && row.target_node == e.tgt &&
        row.relationship_type == e.relationship && row.company == company_name)
    then acc
    else (acc.1 ++ [⟨e.src, e.tgt, e.relationship, company_name, 1⟩], acc.2 + 1)
  let staged := g.edges.foldl step ([], 0)
  if (staged.1.map rowKey).Nodup then
    .ok ({ db with kg_edges := db.kg_edges ++ staged.1 }, staged.2)
  else
    .error "IntegrityError: UNIQUE constraint failed: uq_edge"

end SupplyChainGraph

/-! ## Orchestrator (app/main.py)

The per-company pipeline and the run loop.  Each external HTTP fetch
is represented by an outcome in the company environment; an Except
error value stands for the exception the fetch would raise.  The
run-state bundles the run statistics, the database session state and
the in-memory knowledge graph.  A pipeline function returns its final
state paired with an optional uncaught exception message. -/

/-- A normalised news article as produced by the news sensor. -/
structure Article where
  title : String
  description : String
  url : String
  published_at : String
  source : String
deriving Repr, DecidableEq

/-- Stock data as produced by the finance sensor; change_pct is the
percentage change of the last trading session. -/
structure StockData where
  ticker : String
  change_pct : ℚ
  volatility_label : String
deriving Repr, DecidableEq

/-- Weather data fields read by the pipeline. -/
structure WeatherData where
  description : String
  severity_label : String
deriving Repr, DecidableEq

/-- Pipeline-run metrics (main.py, RiskMonitor init). -/
structure Stats where
  total_articles : Nat
  triaged_passed : Nat
  events_stored : Nat
  duplicates_skipped : Nat
  alerts_sent : Nat
  errors : Nat
deriving Repr, DecidableEq

/-- The zero statistics at the start of a run. -/
def Stats.init : Stats := ⟨0, 0, 0, 0, 0, 0⟩

/-- Mutable state of a RiskMonitor run: statistics, database session
and knowledge graph. -/
structure RunState where
  stats : Stats
  db : DB
  graph : SupplyChainGraph
deriving Repr, DecidableEq

/-- Outcomes of the external calls made while processing one company.
The analyst and triage outcomes are per article. -/
structure CompanyEnv where
  news : Except String (List Article)
  triage : Article → TriageOutcome
  stock : Except String StockData
  weather : Except String WeatherData
  analyst : Article → AnalystOutcome
  now : Int

/-- Fetch recent news articles (news_sensor.py, fetch_news, live
path).  The whole HTTP fetch and RSS parse sits inside a try block
whose handler returns the empty list, so a failed fetch degrades to
no articles and raises nothing. -/
def fetch_news (call : Except String (List Article)) : List Article :=
  match call with
  | .ok articles => articles
  | .error _ => []

/-- Triage a list of articles and keep those that pass
(triage_agent.py, triage_batch). -/
def triage_batch (company_name : String) (articles : List Article)
    (call : Article → TriageOutcome) : List Article :=
  articles.filter (fun art =>
    triage_article company_name art.title art.description (call art))

/-- Graceful-degradation wrapper around the stock fetch
(main.py, RiskMonitor safe fetch for stock): on failure substitute
the neutral record and count one error. -/
def safe_fetch_stock (call : Except String StockData) (ticker : String)
    (stats : Stats) : StockData × Stats :=
  match call with
  | .ok data => (data, stats)
  | .error _ =>
      (⟨ticker, 0, "unknown"⟩, { stats with errors := stats.errors + 1 })

/-- Graceful-degradation wrapper around the weather fetch
(main.py, RiskMonitor safe fetch for weather). -/
def safe_fetch_weather (call : Except String WeatherData)
    (stats : Stats) : WeatherData × Stats :=
  match call with
  | .ok data => (data, stats)
  | .error _ =>
      (⟨"unknown", "unknown"⟩, { stats with errors := stats.errors + 1 })

/-- The fallback supply-chain node used when a company declares no
nodes (main.py, the inline default dict with location Unknown).  The
source dict carries no entity key and no code path reads one. -/
def defaultNode : SupplyNode := ⟨"", "Unknown", "unknown", [0, 0]⟩

/-- Dispatch alerts for a stored RED-severity event (main.py,
RiskMonitor, the tail of the analyse-and-store step, lines 256 to
262): write one audit record per dispatched channel, mark the event
notified, and add the channel count to the alerts_sent statistic.
Events of any other severity are left untouched. -/
def route_event (db : DB) (now : Int) (event : RiskEvent) (stats : Stats) :
    DB × Stats :=
  if should_notify_immediately event then
    let channels := dispatch_alert event
    let db := channels.foldl
      (fun db ch => (record_alert db now event.id ch "sent").1) db
    let db := mark_notified db event
    (db, { stats with alerts_sent := stats.alerts_sent + channels.length })
  else
    (db, stats)

/-- Analyse a single article and store the outcome (main.py,
RiskMonitor, analyse-and-store step): fetch weather for the first
supply-chain node, run the Analyst Agent, add the event to the
knowledge graph, store with dedup, and route RED events.  An
IntegrityError raised by the store commit propagates as an uncaught
exception. -/
def analyse_and_store (company_name : String) (article : Article)
    (stock_data : StockData) (nodes : List SupplyNode)
    (env : CompanyEnv) (st : RunState) : RunState × Option String :=
  let headline := article.title
  let summary := article.description
  let source_url := article.url
  let volatility := stock_data.change_pct
  let node := nodes.headD defaultNode
  let (weather, stats1) := safe_fetch_weather env.weather st.stats
  let st := { st with stats := stats1 }
  let assessment := analyse_risk company_name node.location node.type headline
    summary volatility weather.description weather.severity_label
    (env.analyst article)
  let event_label := "News: " ++ pyTake headline 50 ++ "…"
  let st := { st with graph :=
    SupplyChainGraph.add_event st.graph event_label node.location }
  match store_risk_event st.db env.now company_name headline source_url
      (some volatility) (some weather.description) assessment with
  | .error e => (st, some e)
  | .ok (db, none) =>
      ({ st with
          db := db,
          stats := { st.stats with
            duplicates_skipped := st.stats.duplicates_skipped + 1 } }, none)
  | .ok (db, some event) =>
      let st := { st with
        db := db,
        stats := { st.stats with
          events_stored := st.stats.events_stored + 1 } }
      let routed := route_event st.db env.now event st.stats
      ({ st with db := routed.1, stats := routed.2 }, none)

/-- Process one company through the full pipeline (main.py,
RiskMonitor, the per-company step): fetch news, triage, fetch stock
once, analyse and store every relevant article in order, then
persist the knowledge-graph edges for the company.  An exception
from any article aborts the remaining articles of this company and
skips the edge persistence, propagating to the caller. -/
def process_company (company : Company) (env : CompanyEnv) (st : RunState) :
    RunState × Option String :=
  let articles := fetch_news env.news
  let st := { st with stats := { st.stats with
    total_articles := st.stats.total_articles + articles.length } }
  if articles.isEmpty then (st, none)
  else
    let relevant := triage_batch company.name articles env.triage
    let st := { st with stats := { st.stats with
      triaged_passed := st.stats.triaged_passed + relevant.length } }
    if relevant.isEmpty then (st, none)
    else
      let fetched := safe_fetch_stock env.stock company.ticker st.stats
      let stock_data := fetched.1
      let st := { st with stats := fetched.2 }
      let looped := relevant.foldl (fun acc article =>
        match acc with
        | (st, some e) => (st, some e)
        | (st, none) => analyse_and_store company.name article stock_data
            company.supply_chain_nodes env st) (st, none)
      match looped with
      | (st, some e) => (st, some e)
      | (st, none) =>
          match SupplyChainGraph.persist_edges st.db st.graph company.name with
          | .error e => (st, some e)
          | .ok (db, _) => ({ st with db := db }, none)

/-- The per-company isolation boundary of the run loop (main.py,
RiskMonitor.run, the try/except around the per-company step): an
uncaught exception from the company pipeline is logged and counted
as one error, and the loop continues. -/
def handle_company (st : RunState) (item : Company × CompanyEnv) : RunState :=
  match process_company item.1 item.2 st with
  | (st, none) => st
  | (st, some _) =>
      { st with stats := { st.stats with errors := st.stats.errors + 1 } }

/-- The company loop of RiskMonitor.run. -/
def run_loop (items : List (Company × CompanyEnv)) (st : RunState) : RunState :=
  items.foldl handle_company st

/-- Execute the full pipeline and return the final state, whose stats
field is the summary RiskMonitor.run returns (main.py,
RiskMonitor.run): build the baseline knowledge graph from the
configuration, then process each company inside the isolation
boundary.  Database initialisation and per-run cache clearing touch
nothing modelled here. -/
def run (items : List (Company × CompanyEnv)) (st : RunState) : RunState :=
  let st := { st with graph :=
    SupplyChainGraph.build_from_config st.graph (items.map Prod.fst) }
  run_loop items st

/-! ## Claim C8: fingerprint determinism and normalisation -/

/-- C8: the fingerprint function is deterministic and case and
whitespace insensitive: for every headline h the fingerprint of h
equals itself, the normalisation applied before hashing is exactly
strip followed by lowercase, and the fingerprints of " H " and "h"
coincide. -/
theorem C8_fingerprint_deterministic_normalised :
    (∀ h : String,
      RiskEvent.compute_headline_hash h = RiskEvent.compute_headline_hash h) ∧
    (∀ h : String,
      RiskEvent.compute_headline_hash h = sha256Hex (utf8Bytes (pyLower (pyStrip h)))) ∧
    RiskEvent.compute_headline_hash " H " = RiskEvent.compute_headline_hash "h" := by
  refine ⟨fun _ => rfl, fun _ => rfl, ?_⟩
  show sha256Hex (utf8Bytes (pyLower (pyStrip " H "))) =
    sha256Hex (utf8Bytes (pyLower (pyStrip "h")))
  have h1 : pyLower (pyStrip " H ") = pyLower (pyStrip "h") := by decide
  rw [h1]

/-! ## Claim C3: triage gate fails open -/

/-- C3: for every company, headline and summary, a failed
classification call (HTTP error status or any other exception) makes
triage_article return true, and triage_article can only return false
on a successfully parsed response; it never rejects on a failed
classification. -/
theorem C3_triage_fail_open (company_name headline summary : String) :
    (∀ status text,
      triage_article company_name headline summary
        (.httpStatusError status text) = true) ∧
    (∀ msg,
      triage_article company_name headline summary (.otherError msg) = true) ∧
    (∀ call, triage_article company_name headline summary call = false →
      ∃ content, call = .response content) := by
  refine ⟨fun _ _ => rfl, fun _ => rfl, ?_⟩
  intro call hfalse
  cases call with
  | response content => exact ⟨content, rfl⟩
  | httpStatusError status text => exact absurd hfalse (by simp [triage_article])
  | otherError msg => exact absurd hfalse (by simp [triage_article])

/-- Witness for C3 at concrete inputs: an HTTP 500 and a timeout both
pass the gate, and a parsed NO answer is the shape behind the one
rejecting case. -/
theorem C3_triage_fail_open_witness :
    triage_article "Apple Inc" "TSMC warns of chip disruptions" "summary"
      (.httpStatusError 500 "server error") = true ∧
    triage_article "Apple Inc" "TSMC warns of chip disruptions" "summary"
      (.otherError "timeout") = true ∧
    ∃ content, (TriageOutcome.response "NO" : TriageOutcome) = .response content :=
  ⟨(C3_triage_fail_open "Apple Inc" "TSMC warns of chip disruptions" "summary").1
      500 "server error",
   (C3_triage_fail_open "Apple Inc" "TSMC warns of chip disruptions" "summary").2.1
      "timeout",
   (C3_triage_fail_open "Apple Inc" "TSMC warns of chip disruptions" "summary").2.2
      (.response "NO") (by decide)⟩

/-! ## Claim C4: analyst fallback on error or invalid shape -/

/-- C4: for every input, if the reasoning call fails or its decoded
output fails shape validation, analyse_risk returns (it is a total
function) a fallback assessment with severity YELLOW, confidence
strictly below 50 and a non-empty mitigation list. -/
theorem C4_analyst_fallback (company_name node_location node_type headline
    summary : String) (volatility : ℚ)
    (weather_description weather_severity : String) (call : AnalystOutcome)
    (hfail : ∀ raw, call = .response raw → RiskAssessment.validate raw = none) :
    (analyse_risk company_name node_location node_type headline summary
        volatility weather_description weather_severity call).severity
      = "YELLOW" ∧
    (analyse_risk company_name node_location node_type headline summary
        volatility weather_description weather_severity call).confidence_score
      < 50 ∧
    (analyse_risk company_name node_location node_type headline summary
        volatility weather_description weather_severity call).mitigation_strategies
      ≠ [] := by
  cases call with
  | failure msg =>
      refine ⟨rfl, ?_, ?_⟩
      · show (20 : ℚ) < 50
        norm_num
      · simp [analyse_risk, fallbackAssessment]
  | response raw =>
      have hv := hfail raw rfl
      refine ⟨?_, ?_, ?_⟩
      · simp [analyse_risk, hv, fallbackAssessment]
      · simp only [analyse_risk, hv, fallbackAssessment]
        norm_num
      · simp [analyse_risk, hv, fallbackAssessment]

/-- Witness for C4 at concrete inputs: a transport failure and a
response whose severity field fails the pattern both yield the
YELLOW low-confidence fallback with a non-empty mitigation list. -/
theorem C4_analyst_fallback_witness :
    ((analyse_risk "Apple Inc" "Tainan" "semiconductor" "TSMC warns" "s"
        (-42 / 10) "thunderstorm" "severe_weather"
        (.failure "timeout")).severity = "YELLOW" ∧
      (analyse_risk "Apple Inc" "Tainan" "semiconductor" "TSMC warns" "s"
        (-42 / 10) "thunderstorm" "severe_weather"
        (.failure "timeout")).confidence_score < 50 ∧
      (analyse_risk "Apple Inc" "Tainan" "semiconductor" "TSMC warns" "s"
        (-42 / 10) "thunderstorm" "severe_weather"
        (.failure "timeout")).mitigation_strategies ≠ []) ∧
    ((analyse_risk "Apple Inc" "Tainan" "semiconductor" "TSMC warns" "s"
        (-42 / 10) "thunderstorm" "severe_weather"
        (.response ⟨"PURPLE", "i", "r", ["m"], 50⟩)).severity = "YELLOW" ∧
      (analyse_risk "Apple Inc" "Tainan" "semiconductor" "TSMC warns" "s"
        (-42 / 10) "thunderstorm" "severe_weather"
        (.response ⟨"PURPLE", "i", "r", ["m"], 50⟩)).confidence_score < 50 ∧
      (analyse_risk "Apple Inc" "Tainan" "semiconductor" "TSMC warns" "s"
        (-42 / 10) "thunderstorm" "severe_weather"
        (.response ⟨"PURPLE", "i", "r", ["m"], 50⟩)).mitigation_strategies ≠ []) :=
  ⟨C4_analyst_fallback "Apple Inc" "Tainan" "semiconductor" "TSMC warns" "s"
      (-42 / 10) "thunderstorm" "severe_weather" (.failure "timeout")
      (fun raw h => AnalystOutcome.noConfusion h),
   C4_analyst_fallback "Apple Inc" "Tainan" "semiconductor" "TSMC warns" "s"
      (-42 / 10) "thunderstorm" "severe_weather"
      (.response ⟨"PURPLE", "i", "r", ["m"], 50⟩)
      (fun raw h => by
        cases h
        decide)⟩

/-! ## Claim C2: severity routing -/

/-- C2: routing a stored RED event appends exactly one audit record
for the single configured channel (console), leaves exactly one more
matching record per dispatched channel, and flips the notified flag
of the event; routing an event of any other severity changes nothing,
and a freshly stored event starts with the notified flag false. -/
theorem C2_severity_routing (db : DB) (now : Int) (event : RiskEvent)
    (stats : Stats) :
    (event.severity = "RED" →
      (route_event db now event stats).1.alerts =
        db.alerts ++ [⟨db.nextAlertId, event.id, "console", now, "sent"⟩] ∧
      (route_event db now event stats).2 =
        { stats with alerts_sent := stats.alerts_sent + 1 } ∧
      (∀ ch ∈ dispatch_alert event,
        ((route_event db now event stats).1.alerts.filter
            (fun a => a.risk_event_id == event.id && a.alert_channel == ch)).length =
        (db.alerts.filter
            (fun a => a.risk_event_id == event.id && a.alert_channel == ch)).length
          + 1) ∧
      (∀ e ∈ (route_event db now event stats).1.events,
        e.id = event.id → e.is_notified = true)) ∧
    (event.severity ≠ "RED" → route_event db now event stats = (db, stats)) ∧
    (∀ (db2 : DB) (now2 : Int) (c h u : String) (si : Option ℚ)
        (wc : Option String) (a : RiskAssessment) (db3 : DB) (e : RiskEvent),
      store_risk_event db2 now2 c h u si wc a = .ok (db3, some e) →
      e.is_notified = false) := by
  refine ⟨?_, ?_, ?_⟩
  · intro hsev
    have hred : should_notify_immediately event = true := by
      simp [should_notify_immediately, hsev]
    have hch : dispatch_alert event = ["console"] := rfl
    refine ⟨?_, ?_, ?_, ?_⟩
    · simp [route_event, hred, hch, record_alert, mark_notified]
    · simp [route_event, hred, hch, record_alert, mark_notified]
    · intro ch hchmem
      rw [hch] at hchmem
      simp only [List.mem_singleton] at hchmem
      subst hchmem
      have halerts : (route_event db now event stats).1.alerts =
          db.alerts ++ [⟨db.nextAlertId, event.id, "console", now, "sent"⟩] := by
        simp [route_event, hred, hch, record_alert, mark_notified]
      rw [halerts, List.filter_append, List.length_append]
      simp
    · intro e he hid
      have hev : (route_event db now event stats).1.events =
          db.events.map (fun x =>
            if x.id = event.id then { x with is_notified := true } else x) := by
        simp [route_event, hred, hch, record_alert, mark_notified]
      rw [hev] at he
      obtain ⟨x, hx, rfl⟩ := List.mem_map.mp he
      by_cases hxid : x.id = event.id
      · simp [hxid]
      · rw [if_neg hxid] at hid ⊢
        exact absurd hid hxid
  · intro hsev
    have hred : should_notify_immediately event = false := by
      simp [should_notify_immediately, hsev]
    simp [route_event, hred]
  · intro db2 now2 c h u si wc a db3 e hst
    simp only [store_risk_event] at hst
    split at hst
    · simp at hst
    · split at hst
      · simp at hst
      · simp only [Except.ok.injEq, Prod.mk.injEq, Option.some.injEq] at hst
        rw [← hst.2]

/-- A concrete RED event and database used to witness C2. -/
def c2RedEvent : RiskEvent :=
  ⟨7, "Apple Inc", "supply_chain", "RED", "TSMC warns", "deadbeef",
   some "https://example.com", none, none, some "r", some "i", ["m"],
   some 90, 0, false⟩

/-- A concrete YELLOW event used to witness C2. -/
def c2YellowEvent : RiskEvent :=
  ⟨9, "Apple Inc", "supply_chain", "YELLOW", "Minor delay", "cafebabe",
   some "https://example.com", none, none, some "r", some "i", ["m"],
   some 40, 0, false⟩

/-- A concrete database used to witness C2. -/
def c2Db : DB := ⟨[c2RedEvent], [], [], 8, 1⟩

/-- Witness for C2 at concrete inputs: the RED event gains one console
audit record and its stored copy is flagged notified; the YELLOW event
leaves the store untouched; a concrete store call yields an event with
the notified flag false. -/
theorem C2_severity_routing_witness :
    ((route_event c2Db 5 c2RedEvent Stats.init).1.alerts =
        [⟨1, 7, "console", 5, "sent"⟩]) ∧
    (∀ e ∈ (route_event c2Db 5 c2RedEvent Stats.init).1.events,
      e.id = c2RedEvent.id → e.is_notified = true) ∧
    (route_event c2Db 5 c2YellowEvent Stats.init = (c2Db, Stats.init)) ∧
    ((RiskEvent.mk 1 "Apple Inc" "supply_chain" "YELLOW" "TSMC warns"
        (RiskEvent.compute_headline_hash "TSMC warns")
        (some "https://example.com") none none (some mockAssessment.reasoning)
        (some mockAssessment.impact_estimate) mockAssessment.mitigation_strategies
        (some mockAssessment.confidence_score) 0 false).is_notified = false) := by
  refine ⟨?_, ?_, ?_, ?_⟩
  · exact ((C2_severity_routing c2Db 5 c2RedEvent Stats.init).1 rfl).1
  · exact ((C2_severity_routing c2Db 5 c2RedEvent Stats.init).1 rfl).2.2.2
  · exact (C2_severity_routing c2Db 5 c2YellowEvent Stats.init).2.1 (by decide)
  · exact (C2_severity_routing c2Db 5 c2YellowEvent Stats.init).2.2
      DB.empty 0 "Apple Inc" "TSMC warns" "https://example.com" none none
      mockAssessment _ _ rfl


/-! ## Claim C10: mark_notified frame and monotonicity of the flag -/

/-- Positional monotonicity of the notified flag between two database
states.  The embedded operations never delete or reorder rows of the
events table, so the row at position i before an operation is the row
at position i after it; the flag is monotone when no row that was
flagged true reverts to false. -/
def notifiedMonotone (db db2 : DB) : Prop :=
  db.events.length ≤ db2.events.length ∧
  ∀ i (h1 : i < db.events.length) (h2 : i < db2.events.length),
    db.events[i].is_notified = true → db2.events[i].is_notified = true

/-- Helper: the events table of a routed database is either the map
flipping the flag of the routed event or unchanged. -/
theorem route_event_events (db : DB) (now : Int) (event : RiskEvent)
    (stats : Stats) :
    (route_event db now event stats).1.events =
      db.events.map (fun x =>
        if x.id = event.id then { x with is_notified := true } else x) ∨
    (route_event db now event stats).1.events = db.events := by
  by_cases hred : should_notify_immediately event = true
  · left
    have hch : dispatch_alert event = ["console"] := rfl
    simp [route_event, hred, hch, record_alert, mark_notified]
  · right
    simp [route_event, hred]

/-- C10: mark_notified only flips the notified flag: the table keeps
its length, every other table and counter is unchanged, every field
of every row except the flag is unchanged, the flag of the targeted
row becomes true, and no core operation (store, record_alert,
mark_notified, route_event, persist_edges) ever reverts a true flag
to false. -/
theorem C10_mark_notified_frame_and_monotone :
    (∀ (db : DB) (event : RiskEvent),
      (mark_notified db event).events.length = db.events.length ∧
      (mark_notified db event).alerts = db.alerts ∧
      (mark_notified db event).kg_edges = db.kg_edges ∧
      (mark_notified db event).nextEventId = db.nextEventId ∧
      (mark_notified db event).nextAlertId = db.nextAlertId ∧
      ∀ i (h1 : i < db.events.length)
          (h2 : i < (mark_notified db event).events.length),
        (mark_notified db event).events[i].id = db.events[i].id ∧
        (mark_notified db event).events[i].company_name
            = db.events[i].company_name ∧
        (mark_notified db event).events[i].event_type
            = db.events[i].event_type ∧
        (mark_notified db event).events[i].severity = db.events[i].severity ∧
        (mark_notified db event).events[i].headline = db.events[i].headline ∧
        (mark_notified db event).events[i].headline_hash
            = db.events[i].headline_hash ∧
        (mark_notified db event).events[i].source_url
            = db.events[i].source_url ∧
        (mark_notified db event).events[i].stock_impact
            = db.events[i].stock_impact ∧
        (mark_notified db event).events[i].weather_correlation
            = db.events[i].weather_correlation ∧
        (mark_notified db event).events[i].ai_reasoning
            = db.events[i].ai_reasoning ∧
        (mark_notified db event).events[i].impact_estimate
            = db.events[i].impact_estimate ∧
        (mark_notified db event).events[i].mitigation_strategies
            = db.events[i].mitigation_strategies ∧
        (mark_notified db event).events[i].confidence_score
            = db.events[i].confidence_score ∧
        (mark_notified db event).events[i].created_at
            = db.events[i].created_at ∧
        (mark_notified db event).events[i].is_notified
            = (db.events[i].is_notified || (db.events[i].id == event.id))) ∧
    (∀ (db : DB) (event : RiskEvent), ∀ e ∈ (mark_notified db event).events,
      e.id = event.id → e.is_notified = true) ∧
    (∀ (db : DB) (now : Int) (c h u : String) (si : Option ℚ)
        (wc : Option String) (a : RiskAssessment) (db2 : DB)
        (r : Option RiskEvent),
      store_risk_event db now c h u si wc a = .ok (db2, r) →
      notifiedMonotone db db2) ∧
    (∀ (db : DB) (now : Int) (idx : Nat) (ch st : String),
      notifiedMonotone db (record_alert db now idx ch st).1) ∧
    (∀ (db : DB) (event : RiskEvent),
      notifiedMonotone db (mark_notified db event)) ∧
    (∀ (db : DB) (now : Int) (event : RiskEvent) (stats : Stats),
      notifiedMonotone db (route_event db now event stats).1) ∧
    (∀ (db : DB) (g : SupplyChainGraph) (c : String) (db2 : DB) (n : Nat),
      SupplyChainGraph.persist_edges db g c = .ok (db2, n) →
      notifiedMonotone db db2) := by
  have hmarkGet : ∀ (db : DB) (event : RiskEvent) i
      (h1 : i < db.events.length)
      (h2 : i < (mark_notified db event).events.length),
      (mark_notified db event).events[i] =
        (if db.events[i].id = event.id
         then { db.events[i] with is_notified := true }
         else db.events[i]) := by
    intro db event i h1 h2
    simp [mark_notified, List.getElem_map]
  have hmarkMono : ∀ (db : DB) (event : RiskEvent),
      notifiedMonotone db (mark_notified db event) := by
    intro db event
    refine ⟨by simp [mark_notified], ?_⟩
    intro i h1 h2 htrue
    rw [hmarkGet db event i h1 h2]
    by_cases hid : db.events[i].id = event.id
    · rw [if_pos hid]
    · rw [if_neg hid]
      exact htrue
  refine ⟨?_, ?_, ?_, ?_, hmarkMono, ?_, ?_⟩
  · intro db event
    refine ⟨by simp [mark_notified], rfl, rfl, rfl, rfl, ?_⟩
    intro i h1 h2
    rw [hmarkGet db event i h1 h2]
    by_cases hid : db.events[i].id = event.id
    · rw [if_pos hid]
      refine ⟨rfl, rfl, rfl, rfl, rfl, rfl, rfl, rfl, rfl, rfl, rfl, rfl, rfl,
        rfl, ?_⟩
      simp [hid]
    · rw [if_neg hid]
      refine ⟨rfl, rfl, rfl, rfl, rfl, rfl, rfl, rfl, rfl, rfl, rfl, rfl, rfl,
        rfl, ?_⟩
      simp [hid]
  · intro db event e he hid
    simp only [mark_notified] at he
    obtain ⟨x, hx, rfl⟩ := List.mem_map.mp he
    by_cases hxid : x.id = event.id
    · simp [hxid]
    · rw [if_neg hxid] at hid ⊢
      exact absurd hid hxid
  · intro db now c h u si wc a db2 r hst
    simp only [store_risk_event] at hst
    split at hst
    · simp only [Except.ok.injEq, Prod.mk.injEq] at hst
      rw [← hst.1]
      exact ⟨le_refl _, fun i h1 h2 htrue => htrue⟩
    · split at hst
      · simp at hst
      · simp only [Except.ok.injEq, Prod.mk.injEq] at hst
        rw [← hst.1]
        refine ⟨by simp, ?_⟩
        intro i h1 h2 htrue
        rw [List.getElem_append_left h1]
        exact htrue
  · intro db now idx ch st
    exact ⟨le_refl _, fun i h1 h2 htrue => htrue⟩
  · intro db now event stats
    rcases route_event_events db now event stats with hev | hev
    · refine ⟨by rw [hev]; simp, ?_⟩
      intro i h1 h2 htrue
      have h2m : i < (db.events.map (fun x =>
          if x.id = event.id then { x with is_notified := true } else x)).length := by
        rw [← hev]
        exact h2
      have hg : (route_event db now event stats).1.events[i] =
          (if db.events[i].id = event.id
           then { db.events[i] with is_notified := true }
           else db.events[i]) := by
        rw [List.getElem_of_eq hev]
        simp [List.getElem_map]
      rw [hg]
      by_cases hid : db.events[i].id = event.id
      · rw [if_pos hid]
      · rw [if_neg hid]
        exact htrue
    · refine ⟨by rw [hev], ?_⟩
      intro i h1 h2 htrue
      rw [List.getElem_of_eq hev]
      exact htrue
  · intro db g c db2 n hp
    simp only [SupplyChainGraph.persist_edges] at hp
    split at hp
    · simp only [Except.ok.injEq, Prod.mk.injEq] at hp
      rw [← hp.1]
      exact ⟨le_refl _, fun i h1 h2 htrue => htrue⟩
    · simp at hp

/-- Witness for C10 at concrete inputs: marking the RED event of a
one-row database flips its flag, and concrete monotonicity instances
for mark_notified and record_alert. -/
theorem C10_mark_notified_witness :
    (∀ e ∈ (mark_notified c2Db c2RedEvent).events,
      e.id = c2RedEvent.id → e.is_notified = true) ∧
    notifiedMonotone c2Db (mark_notified c2Db c2RedEvent) ∧
    notifiedMonotone c2Db (record_alert c2Db 5 7 "console" "sent").1 :=
  ⟨C10_mark_notified_frame_and_monotone.2.1 c2Db c2RedEvent,
   C10_mark_notified_frame_and_monotone.2.2.2.2.1 c2Db c2RedEvent,
   C10_mark_notified_frame_and_monotone.2.2.2.1 c2Db 5 7 "console" "sent"⟩

/-! ## Claim C1: the dedup window against the global uniqueness key

models.py declares the headline_hash column UNIQUE over the whole
table while the pre-check of store_risk_event only scans the trailing
24 hours, so a repeated headline outside the window passes the
pre-check and then violates the constraint at commit. -/

/-- The headline of the concrete C1 scenario. -/
def c1Headline : String := "TSMC warns of chip disruptions"

/-- The event stored by the first C1 call. -/
def c1Event : RiskEvent :=
  ⟨1, "Apple Inc", "supply_chain", mockAssessment.severity, c1Headline,
   RiskEvent.compute_headline_hash c1Headline, some "https://example.com",
   some 0, some "cloudy", some mockAssessment.reasoning,
   some mockAssessment.impact_estimate, mockAssessment.mitigation_strategies,
   some mockAssessment.confidence_score, 0, false⟩

/-- The database after the first C1 call. -/
def c1Db1 : DB := ⟨[c1Event], [], [], 2, 1⟩

/-- Counterexample to C1 as stated: the first store call on an empty
database succeeds, but the second call with the same headline 25
hours later does not succeed as a distinct stored event — the
windowed pre-check passes and the insert then violates the global
UNIQUE constraint on headline_hash, raising IntegrityError. -/
theorem C1_counterexample :
    store_risk_event DB.empty 0 "Apple Inc" c1Headline "https://example.com"
        (some 0) (some "cloudy") mockAssessment = .ok (c1Db1, some c1Event) ∧
    store_risk_event c1Db1 (25 * 3600) "Apple Inc" c1Headline
        "https://example.com" (some 0) (some "cloudy") mockAssessment =
      .error "IntegrityError: UNIQUE constraint failed: risk_events.headline_hash" := by
  constructor
  · rfl
  · have hfind : c1Db1.events.find? (fun x =>
        x.headline_hash == RiskEvent.compute_headline_hash c1Headline &&
        decide (25 * 3600 - 24 * 3600 ≤ x.created_at)) = none := by
      show List.find? _ [c1Event] = none
      simp [c1Event]
    have hany : c1Db1.events.any (fun x =>
        x.headline_hash == RiskEvent.compute_headline_hash c1Headline) = true := by
      show List.any [c1Event] _ = true
      simp [c1Event]
    simp only [store_risk_event, hfind, hany]
    rfl

/-- C1 amended: for a database holding exactly one event with the
fingerprint of headline h created at time t1, a second store call for
h at time t2 within the 24 hour window returns the duplicate outcome
and performs no insert; a second call more than 24 hours later (for
instance 25 hours) raises IntegrityError from the global UNIQUE
constraint on headline_hash instead of storing a second event. -/
theorem C1_dedup_window_amended (h : String) (t1 t2 : Int) (db : DB)
    (e : RiskEvent) (company url : String) (si : Option ℚ)
    (wc : Option String) (a : RiskAssessment)
    (hdb : db.events = [e])
    (hhash : e.headline_hash = RiskEvent.compute_headline_hash h)
    (hcreated : e.created_at = t1) :
    (t2 - t1 ≤ 24 * 3600 →
      store_risk_event db t2 company h url si wc a = .ok (db, none)) ∧
    (24 * 3600 < t2 - t1 →
      store_risk_event db t2 company h url si wc a =
        .error "IntegrityError: UNIQUE constraint failed: risk_events.headline_hash") := by
  constructor
  · intro hwin
    have hfind : db.events.find? (fun x =>
        x.headline_hash == RiskEvent.compute_headline_hash h &&
        decide (t2 - 24 * 3600 ≤ x.created_at)) = some e := by
      rw [hdb]
      have hc : decide (t2 - 24 * 3600 ≤ e.created_at) = true := by
        rw [hcreated]
        exact decide_eq_true (by omega)
      simp only [List.find?, hhash, beq_self_eq_true, Bool.true_and, hc]
    simp only [store_risk_event, hfind]
  · intro hout
    have hfind : db.events.find? (fun x =>
        x.headline_hash == RiskEvent.compute_headline_hash h &&
        decide (t2 - 24 * 3600 ≤ x.created_at)) = none := by
      rw [hdb]
      have hc : decide (t2 - 24 * 3600 ≤ e.created_at) = false := by
        rw [hcreated]
        exact decide_eq_false (by omega)
      simp only [List.find?, hc, Bool.and_false]
    have hany : db.events.any (fun x =>
        x.headline_hash == RiskEvent.compute_headline_hash h) = true := by
      rw [hdb]
      simp [hhash]
    simp only [store_risk_event, hfind, hany]
    rfl

/-- Witness for the amended C1 at concrete inputs: one hour after the
first store the same headline is reported duplicate with no insert,
and twenty-five hours after it the call raises IntegrityError. -/
theorem C1_dedup_window_amended_witness :
    store_risk_event c1Db1 3600 "Apple Inc" c1Headline "https://example.com"
        (some 0) (some "cloudy") mockAssessment = .ok (c1Db1, none) ∧
    store_risk_event c1Db1 (25 * 3600) "Apple Inc" c1Headline
        "https://example.com" (some 0) (some "cloudy") mockAssessment =
      .error "IntegrityError: UNIQUE constraint failed: risk_events.headline_hash" :=
  ⟨(C1_dedup_window_amended c1Headline 0 3600 c1Db1 c1Event "Apple Inc"
      "https://example.com" (some 0) (some "cloudy") mockAssessment
      rfl rfl rfl).1 (by norm_num),
   (C1_dedup_window_amended c1Headline 0 (25 * 3600) c1Db1 c1Event "Apple Inc"
      "https://example.com" (some 0) (some "cloudy") mockAssessment
      rfl rfl rfl).2 (by norm_num)⟩

/-! ## Claim C7: persist_edges and the uniqueness key

knowledge_graph.py iterates over every edge of the in-memory graph,
not only those touching the company scope, tagging each written row
with the scope name. -/

namespace SupplyChainGraph

/-- The rows that one persist_edges call stages: every graph edge
whose (source, target, relation, company) key is absent from the
committed rows, tagged with the scope company. -/
def newRows (db : DB) (g : SupplyChainGraph) (c : String) :
    List KnowledgeGraphEdge :=
  (g.edges.filter (fun e => !(db.kg_edges.any (fun row =>
      row.source_node == e.src && row.target_node == e.tgt &&
      row.relationship_type == e.relationship && row.company == c)))).map
    (fun e => ⟨e.src, e.tgt, e.relationship, c, 1⟩)

/-- The staging loop of persist_edges accumulates exactly the new
rows, in edge order, and counts them. -/
theorem persist_foldl_spec (db : DB) (c : String) :
    ∀ (es : List GEdge) (p : List KnowledgeGraphEdge) (n : Nat),
      es.foldl (fun (acc : List KnowledgeGraphEdge × Nat) (e : GEdge) =>
        if db.kg_edges.any (fun row =>
            row.source_node == e.src && row.target_node == e.tgt &&
            row.relationship_type == e.relationship && row.company == c)
        then acc
        else (acc.1 ++ [⟨e.src, e.tgt, e.relationship, c, 1⟩], acc.2 + 1)) (p, n)
      = (p ++ newRows db ⟨[], es⟩ c, n + (newRows db ⟨[], es⟩ c).length) := by
  intro es
  induction es with
  | nil => intro p n; simp [newRows]
  | cons e es ih =>
      intro p n
      by_cases hpres : db.kg_edges.any (fun row =>
          row.source_node == e.src && row.target_node == e.tgt &&
          row.relationship_type == e.relationship && row.company == c) = true
      · simp only [List.foldl_cons, if_pos hpres]
        rw [ih]
        have hfil : newRows db ⟨[], e :: es⟩ c = newRows db ⟨[], es⟩ c := by
          simp only [newRows, List.filter_cons, hpres]
          simp
        rw [hfil]
      · have hpres2 : db.kg_edges.any (fun row =>
            row.source_node == e.src && row.target_node == e.tgt &&
            row.relationship_type == e.relationship && row.company == c) = false :=
          Bool.eq_false_iff.mpr hpres
        simp only [List.foldl_cons, if_neg hpres]
        rw [ih]
        have hfil : newRows db ⟨[], e :: es⟩ c =
            ⟨e.src, e.tgt, e.relationship, c, 1⟩ :: newRows db ⟨[], es⟩ c := by
          simp only [newRows, List.filter_cons, hpres2]
          simp
        rw [hfil]
        simp only [Prod.mk.injEq, List.append_assoc, List.singleton_append,
          List.length_cons]
        constructor
        · trivial
        · omega

/-- The edge list of a graph determines the staged rows. -/
theorem newRows_eq_of_edges (db : DB) (g : SupplyChainGraph) (c : String) :
    newRows db g c = newRows db ⟨[], g.edges⟩ c := rfl

end SupplyChainGraph

/-- The one-company configuration of the concrete C7 scenario. -/
def c7Company : Company :=
  ⟨"Tesla Inc", "TSLA", [], [⟨"Giga Shanghai", "Shanghai", "assembly", [31, 121]⟩]⟩

/-- The graph built from the C7 configuration: two edges, both owned
by the Tesla topology. -/
def c7Graph : SupplyChainGraph :=
  SupplyChainGraph.build_from_config SupplyChainGraph.empty [c7Company]

/-- Counterexample to C7 as stated: with a graph holding only the two
Tesla edges and a scope company that appears nowhere in the graph,
persist writes both edges (tagged with the scope company) and returns
2, although no current edge touches the scope; the claimed behaviour
would write nothing and return 0. -/
theorem C7_counterexample :
    SupplyChainGraph.persist_edges DB.empty c7Graph "Apple Inc" =
      .ok (⟨[], [],
        [⟨"Shanghai", "Giga Shanghai", "manufactures_at (assembly)", "Apple Inc", 1⟩,
         ⟨"Giga Shanghai", "Tesla Inc", "supplies", "Apple Inc", 1⟩], 1, 1⟩, 2) ∧
    "Apple Inc" ∉ c7Graph.nodeKeys := by
  constructor
  · rfl
  · decide

/-- C7 amended: persist(companyScope) upserts all current graph edges
(whether or not they touch companyScope) into storage under the
(source, target, relation, companyScope) key: rows already present
under that key are skipped, the rest are appended in edge order, and
the returned count is the number of newly written rows; repeating the
call with an unchanged graph writes nothing and returns 0. -/
theorem C7_persist_edges_amended :
    (∀ (db : DB) (g : SupplyChainGraph) (c : String),
      ((SupplyChainGraph.newRows db g c).map SupplyChainGraph.rowKey).Nodup →
      SupplyChainGraph.persist_edges db g c =
        .ok ({ db with kg_edges := db.kg_edges ++ SupplyChainGraph.newRows db g c },
             (SupplyChainGraph.newRows db g c).length)) ∧
    (∀ (db : DB) (g : SupplyChainGraph) (c : String) (db2 : DB) (n : Nat),
      SupplyChainGraph.persist_edges db g c = .ok (db2, n) →
      SupplyChainGraph.persist_edges db2 g c = .ok (db2, 0)) := by
  have hchar : ∀ (db : DB) (g : SupplyChainGraph) (c : String),
      SupplyChainGraph.persist_edges db g c =
        (if ((SupplyChainGraph.newRows db g c).map SupplyChainGraph.rowKey).Nodup
         then .ok ({ db with kg_edges := db.kg_edges ++ SupplyChainGraph.newRows db g c },
                   (SupplyChainGraph.newRows db g c).length)
         else .error "IntegrityError: UNIQUE constraint failed: uq_edge") := by
    intro db g c
    simp only [SupplyChainGraph.persist_edges]
    rw [SupplyChainGraph.persist_foldl_spec db c g.edges [] 0]
    rw [← SupplyChainGraph.newRows_eq_of_edges db g c]
    simp only [List.nil_append, Nat.zero_add]
  constructor
  · intro db g c hnd
    rw [hchar, if_pos hnd]
  · intro db g c db2 n hp
    rw [hchar] at hp
    by_cases hnd : ((SupplyChainGraph.newRows db g c).map SupplyChainGraph.rowKey).Nodup
    · rw [if_pos hnd] at hp
      simp only [Except.ok.injEq, Prod.mk.injEq] at hp
      have hdb2 : db2 = { db with
          kg_edges := db.kg_edges ++ SupplyChainGraph.newRows db g c } := hp.1.symm
      have hall : ∀ e ∈ g.edges, db2.kg_edges.any (fun row =>
          row.source_node == e.src && row.target_node == e.tgt &&
          row.relationship_type == e.relationship && row.company == c) = true := by
        intro e he
        rw [hdb2]
        by_cases hpres : db.kg_edges.any (fun row =>
            row.source_node == e.src && row.target_node == e.tgt &&
            row.relationship_type == e.relationship && row.company == c) = true
        · simp only [List.any_append, hpres, Bool.true_or]
        · have hpres2 : db.kg_edges.any (fun row =>
              row.source_node == e.src && row.target_node == e.tgt &&
              row.relationship_type == e.relationship && row.company == c)
              = false := Bool.eq_false_iff.mpr hpres
          have hmem : (⟨e.src, e.tgt, e.relationship, c, 1⟩ : KnowledgeGraphEdge)
              ∈ SupplyChainGraph.newRows db g c := by
            simp only [SupplyChainGraph.newRows, List.mem_map]
            refine ⟨e, ?_, rfl⟩
            rw [List.mem_filter]
            exact ⟨he, by rw [hpres2]; rfl⟩
          have hany2 : (SupplyChainGraph.newRows db g c).any (fun row =>
              row.source_node == e.src && row.target_node == e.tgt &&
              row.relationship_type == e.relationship && row.company == c)
              = true := by
            rw [List.any_eq_true]
            exact ⟨_, hmem, by simp⟩
          simp only [List.any_append, hany2, Bool.or_true]
      have hempty : SupplyChainGraph.newRows db2 g c = [] := by
        simp only [SupplyChainGraph.newRows, List.map_eq_nil_iff]
        rw [List.filter_eq_nil_iff]
        intro e he
        simp [hall e he]
      rw [hchar, hempty]
      simp only [List.map_nil, List.nodup_nil, if_true, List.append_nil,
        List.length_nil]
    · rw [if_neg hnd] at hp
      exact absurd hp (by simp)

/-- Witness for the amended C7 at concrete inputs: the first persist
on an empty store writes both Tesla edges under the Apple scope and
returns 2; repeating it returns 0 and leaves the store unchanged. -/
theorem C7_persist_edges_amended_witness :
    SupplyChainGraph.persist_edges DB.empty c7Graph "Apple Inc" =
      .ok ({ DB.empty with kg_edges :=
              DB.empty.kg_edges ++ SupplyChainGraph.newRows DB.empty c7Graph "Apple Inc" },
           (SupplyChainGraph.newRows DB.empty c7Graph "Apple Inc").length) ∧
    SupplyChainGraph.persist_edges
        { DB.empty with kg_edges :=
            DB.empty.kg_edges ++ SupplyChainGraph.newRows DB.empty c7Graph "Apple Inc" }
        c7Graph "Apple Inc" =
      .ok ({ DB.empty with kg_edges :=
              DB.empty.kg_edges ++ SupplyChainGraph.newRows DB.empty c7Graph "Apple Inc" },
           0) :=
  ⟨C7_persist_edges_amended.1 DB.empty c7Graph "Apple Inc" (by decide),
   C7_persist_edges_amended.2 DB.empty c7Graph "Apple Inc" _ _
     (C7_persist_edges_amended.1 DB.empty c7Graph "Apple Inc" (by decide))⟩

/-! ## Claim C9: idempotence of the static topology build

The second application of build_from_config with the same
configuration re-adds only nodes and edges whose keys are already
present, so the node key list and the edge key list are unchanged.
The lemmas below work at key level: node keys are the association
keys of the node list, edge keys the (source, target) pairs. -/

namespace SupplyChainGraph

/-- Membership in the node keys decides the any-test used by the add
operations. -/
theorem any_nodes_iff_mem (g : SupplyChainGraph) (n : String) :
    (g.nodes.any (fun p => p.1 == n)) = true ↔ n ∈ g.nodeKeys := by
  simp only [nodeKeys, List.any_eq_true, beq_iff_eq, List.mem_map]

/-- Membership in the edge keys decides the any-test used by
add_edge. -/
theorem any_edges_iff_mem (g : SupplyChainGraph) (u v : String) :
    (g.edges.any (fun e => e.src == u && e.tgt == v)) = true ↔
      (u, v) ∈ g.edgeKeys := by
  simp only [edgeKeys, List.any_eq_true, Bool.and_eq_true, beq_iff_eq,
    List.mem_map]
  constructor
  · rintro ⟨e, he, rfl, rfl⟩
    exact ⟨e, he, rfl⟩
  · rintro ⟨e, he, heq⟩
    exact ⟨e, he, congrArg Prod.fst heq, congrArg Prod.snd heq⟩

/-- Node keys are unchanged by addNodeType on a present key. -/
theorem nodeKeys_addNodeType_mem (g : SupplyChainGraph) (n t : String)
    (hmem : n ∈ g.nodeKeys) :
    (addNodeType g n t).nodeKeys = g.nodeKeys := by
  simp only [addNodeType, if_pos ((any_nodes_iff_mem g n).mpr hmem)]
  show (g.nodes.map _).map Prod.fst = g.nodes.map Prod.fst
  rw [List.map_map]
  refine List.map_congr_left ?_
  intro p hp
  by_cases hpn : p.1 = n
  · simp [hpn]
  · simp [hpn]

/-- Node keys gain the new key when addNodeType inserts. -/
theorem nodeKeys_addNodeType_not_mem (g : SupplyChainGraph) (n t : String)
    (hmem : n ∉ g.nodeKeys) :
    (addNodeType g n t).nodeKeys = g.nodeKeys ++ [n] := by
  have hany : ¬((g.nodes.any (fun p => p.1 == n)) = true) :=
    fun h => hmem ((any_nodes_iff_mem g n).mp h)
  simp only [addNodeType, if_neg hany]
  simp [nodeKeys]

/-- addNodeType leaves the edges untouched. -/
theorem edges_addNodeType (g : SupplyChainGraph) (n t : String) :
    (addNodeType g n t).edges = g.edges := by
  simp only [addNodeType]
  split
  · rfl
  · rfl

/-- The edge keys are untouched by addNodeType. -/
theorem edgeKeys_addNodeType (g : SupplyChainGraph) (n t : String) :
    (addNodeType g n t).edgeKeys = g.edgeKeys := by
  simp only [edgeKeys, edges_addNodeType]

/-- Node keys are unchanged by ensureNode on a present key. -/
theorem nodeKeys_ensureNode_mem (g : SupplyChainGraph) (n : String)
    (hmem : n ∈ g.nodeKeys) :
    (ensureNode g n).nodeKeys = g.nodeKeys := by
  simp only [ensureNode, if_pos ((any_nodes_iff_mem g n).mpr hmem)]

/-- Node keys gain the new key when ensureNode inserts. -/
theorem nodeKeys_ensureNode_not_mem (g : SupplyChainGraph) (n : String)
    (hmem : n ∉ g.nodeKeys) :
    (ensureNode g n).nodeKeys = g.nodeKeys ++ [n] := by
  have hany : ¬((g.nodes.any (fun p => p.1 == n)) = true) :=
    fun h => hmem ((any_nodes_iff_mem g n).mp h)
  simp only [ensureNode, if_neg hany]
  simp [nodeKeys]

/-- ensureNode leaves the edges untouched. -/
theorem edges_ensureNode (g : SupplyChainGraph) (n : String) :
    (ensureNode g n).edges = g.edges := by
  simp only [ensureNode]
  split
  · rfl
  · rfl

/-- The edge keys are untouched by ensureNode. -/
theorem edgeKeys_ensureNode (g : SupplyChainGraph) (n : String) :
    (ensureNode g n).edgeKeys = g.edgeKeys := by
  simp only [edgeKeys, edges_ensureNode]

/-- The nodes of add_edge are those after ensuring both endpoints. -/
theorem nodes_add_edge (g : SupplyChainGraph) (u v r : String) :
    (add_edge g u v r).nodes = (ensureNode (ensureNode g u) v).nodes := by
  simp only [add_edge]
  split
  · rfl
  · rfl

/-- The node keys of add_edge are those after ensuring both
endpoints. -/
theorem nodeKeys_add_edge (g : SupplyChainGraph) (u v r : String) :
    (add_edge g u v r).nodeKeys = (ensureNode (ensureNode g u) v).nodeKeys := by
  simp only [nodeKeys, nodes_add_edge]

/-- Edge keys are unchanged by add_edge on a present key. -/
theorem edgeKeys_add_edge_mem (g : SupplyChainGraph) (u v r : String)
    (hmem : (u, v) ∈ g.edgeKeys) :
    (add_edge g u v r).edgeKeys = g.edgeKeys := by
  have hedges : (ensureNode (ensureNode g u) v).edges = g.edges := by
    rw [edges_ensureNode, edges_ensureNode]
  have hany : ((ensureNode (ensureNode g u) v).edges.any
      (fun e => e.src == u && e.tgt == v)) = true := by
    rw [hedges]
    exact (any_edges_iff_mem g u v).mpr hmem
  simp only [add_edge, if_pos hany]
  show ((ensureNode (ensureNode g u) v).edges.map _).map _ = g.edgeKeys
  rw [List.map_map, hedges]
  show g.edges.map _ = g.edges.map _
  refine List.map_congr_left ?_
  intro e he
  by_cases hek : e.src = u ∧ e.tgt = v
  · simp [hek.1, hek.2]
  · simp [hek]

/-- Edge keys gain the new key when add_edge inserts. -/
theorem edgeKeys_add_edge_not_mem (g : SupplyChainGraph) (u v r : String)
    (hmem : (u, v) ∉ g.edgeKeys) :
    (add_edge g u v r).edgeKeys = g.edgeKeys ++ [(u, v)] := by
  have hedges : (ensureNode (ensureNode g u) v).edges = g.edges := by
    rw [edges_ensureNode, edges_ensureNode]
  have hany : ¬(((ensureNode (ensureNode g u) v).edges.any
      (fun e => e.src == u && e.tgt == v)) = true) := by
    rw [hedges]
    exact fun h => hmem ((any_edges_iff_mem g u v).mp h)
  simp only [add_edge, if_neg hany]
  show ((ensureNode (ensureNode g u) v).edges ++ [(⟨u, v, r⟩ : GEdge)]).map
      (fun e => (e.src, e.tgt)) = _
  rw [List.map_append, hedges]
  rfl

/-- Key extension between graphs: every node key and every edge key
of the first graph is a key of the second. -/
def KeysExtend (g g2 : SupplyChainGraph) : Prop :=
  (∀ n, n ∈ g.nodeKeys → n ∈ g2.nodeKeys) ∧
  (∀ k, k ∈ g.edgeKeys → k ∈ g2.edgeKeys)

/-- Key extension is reflexive. -/
theorem keysExtend_refl (g : SupplyChainGraph) : KeysExtend g g :=
  ⟨fun _ h => h, fun _ h => h⟩

/-- Key extension is transitive. -/
theorem keysExtend_trans {a b c : SupplyChainGraph}
    (h1 : KeysExtend a b) (h2 : KeysExtend b c) : KeysExtend a c :=
  ⟨fun n h => h2.1 n (h1.1 n h), fun k h => h2.2 k (h1.2 k h)⟩

/-- addNodeType extends the keys. -/
theorem keysExtend_addNodeType (g : SupplyChainGraph) (n t : String) :
    KeysExtend g (addNodeType g n t) := by
  constructor
  · intro m hm
    by_cases hmem : n ∈ g.nodeKeys
    · rw [nodeKeys_addNodeType_mem g n t hmem]
      exact hm
    · rw [nodeKeys_addNodeType_not_mem g n t hmem]
      exact List.mem_append_left _ hm
  · intro k hk
    rw [edgeKeys_addNodeType]
    exact hk

/-- ensureNode extends the keys. -/
theorem keysExtend_ensureNode (g : SupplyChainGraph) (n : String) :
    KeysExtend g (ensureNode g n) := by
  constructor
  · intro m hm
    by_cases hmem : n ∈ g.nodeKeys
    · rw [nodeKeys_ensureNode_mem g n hmem]
      exact hm
    · rw [nodeKeys_ensureNode_not_mem g n hmem]
      exact List.mem_append_left _ hm
  · intro k hk
    rw [edgeKeys_ensureNode]
    exact hk

/-- add_edge extends the keys. -/
theorem keysExtend_add_edge (g : SupplyChainGraph) (u v r : String) :
    KeysExtend g (add_edge g u v r) := by
  constructor
  · intro m hm
    rw [nodeKeys_add_edge]
    exact (keysExtend_trans (keysExtend_ensureNode g u)
      (keysExtend_ensureNode (ensureNode g u) v)).1 m hm
  · intro k hk
    by_cases hmem : (u, v) ∈ g.edgeKeys
    · rw [edgeKeys_add_edge_mem g u v r hmem]
      exact hk
    · rw [edgeKeys_add_edge_not_mem g u v r hmem]
      exact List.mem_append_left _ hk

/-- The added node is a key after addNodeType. -/
theorem mem_addNodeType_self (g : SupplyChainGraph) (n t : String) :
    n ∈ (addNodeType g n t).nodeKeys := by
  by_cases hmem : n ∈ g.nodeKeys
  · rw [nodeKeys_addNodeType_mem g n t hmem]
    exact hmem
  · rw [nodeKeys_addNodeType_not_mem g n t hmem]
    exact List.mem_append_right _ (List.mem_singleton.mpr rfl)

/-- The added edge key is present after add_edge. -/
theorem mem_add_edge_self (g : SupplyChainGraph) (u v r : String) :
    (u, v) ∈ (add_edge g u v r).edgeKeys := by
  by_cases hmem : (u, v) ∈ g.edgeKeys
  · rw [edgeKeys_add_edge_mem g u v r hmem]
    exact hmem
  · rw [edgeKeys_add_edge_not_mem g u v r hmem]
    exact List.mem_append_right _ (List.mem_singleton.mpr rfl)

/-- The per-supply-node step of addCompanyTopology. -/
def nodeStep (cname : String) (g : SupplyChainGraph) (node : SupplyNode) :
    SupplyChainGraph :=
  let g := addNodeType g node.entity "supplier"
  let g := addNodeType g node.location "location"
  let g := add_edge g node.location node.entity
    ("manufactures_at (" ++ node.type ++ ")")
  add_edge g node.entity cname "supplies"

/-- addCompanyTopology is the company-node add followed by the fold
of the per-node steps. -/
theorem addCompanyTopology_eq (g : SupplyChainGraph) (c : Company) :
    addCompanyTopology g c =
      c.supply_chain_nodes.foldl (nodeStep c.name)
        (addNodeType g c.name "company") := rfl

/-- One per-node step extends the keys. -/
theorem keysExtend_nodeStep (cname : String) (g : SupplyChainGraph)
    (node : SupplyNode) : KeysExtend g (nodeStep cname g node) := by
  show KeysExtend g (add_edge (add_edge (addNodeType (addNodeType g
    node.entity "supplier") node.location "location") node.location
    node.entity ("manufactures_at (" ++ node.type ++ ")")) node.entity
    cname "supplies")
  refine keysExtend_trans (keysExtend_addNodeType g node.entity "supplier") ?_
  refine keysExtend_trans (keysExtend_addNodeType _ node.location "location") ?_
  refine keysExtend_trans (keysExtend_add_edge _ node.location node.entity
    ("manufactures_at (" ++ node.type ++ ")")) ?_
  exact keysExtend_add_edge _ node.entity cname "supplies"

/-- The fold of per-node steps extends the keys. -/
theorem keysExtend_nodeStep_fold (cname : String) :
    ∀ (ns : List SupplyNode) (g : SupplyChainGraph),
      KeysExtend g (ns.foldl (nodeStep cname) g) := by
  intro ns
  induction ns with
  | nil => intro g; exact keysExtend_refl g
  | cons node ns ih =>
      intro g
      exact keysExtend_trans (keysExtend_nodeStep cname g node)
        (ih (nodeStep cname g node))

/-- After one per-node step, the four keys of that supply node are
present. -/
theorem nodeStep_establishes (cname : String) (g : SupplyChainGraph)
    (node : SupplyNode) :
    node.entity ∈ (nodeStep cname g node).nodeKeys ∧
    node.location ∈ (nodeStep cname g node).nodeKeys ∧
    (node.location, node.entity) ∈ (nodeStep cname g node).edgeKeys ∧
    (node.entity, cname) ∈ (nodeStep cname g node).edgeKeys := by
  unfold nodeStep
  set g1 := addNodeType g node.entity "supplier" with hg1
  set g2 := addNodeType g1 node.location "location" with hg2
  set g3 := add_edge g2 node.location node.entity
    ("manufactures_at (" ++ node.type ++ ")") with hg3
  refine ⟨?_, ?_, ?_, ?_⟩
  · exact (keysExtend_trans (keysExtend_addNodeType g1 node.location "location")
      (keysExtend_trans (keysExtend_add_edge g2 node.location node.entity
        ("manufactures_at (" ++ node.type ++ ")"))
        (keysExtend_add_edge g3 node.entity cname "supplies"))).1 node.entity
      (mem_addNodeType_self g node.entity "supplier")
  · exact (keysExtend_trans (keysExtend_add_edge g2 node.location node.entity
        ("manufactures_at (" ++ node.type ++ ")"))
      (keysExtend_add_edge g3 node.entity cname "supplies")).1 node.location
      (mem_addNodeType_self g1 node.location "location")
  · exact (keysExtend_add_edge g3 node.entity cname "supplies").2 _
      (mem_add_edge_self g2 node.location node.entity
        ("manufactures_at (" ++ node.type ++ ")"))
  · exact mem_add_edge_self g3 node.entity cname "supplies"

/-- After the fold of per-node steps, every listed supply node has
its four keys present. -/
theorem nodeStep_fold_establishes (cname : String) :
    ∀ (ns : List SupplyNode) (g : SupplyChainGraph), ∀ node ∈ ns,
      node.entity ∈ (ns.foldl (nodeStep cname) g).nodeKeys ∧
      node.location ∈ (ns.foldl (nodeStep cname) g).nodeKeys ∧
      (node.location, node.entity) ∈ (ns.foldl (nodeStep cname) g).edgeKeys ∧
      (node.entity, cname) ∈ (ns.foldl (nodeStep cname) g).edgeKeys := by
  intro ns
  induction ns with
  | nil => intro g node hmem; exact absurd hmem (List.not_mem_nil node)
  | cons n0 ns ih =>
      intro g node hmem
      simp only [List.foldl_cons]
      rcases List.mem_cons.mp hmem with rfl | htail
      · have hest := nodeStep_establishes cname g node
        have hext := keysExtend_nodeStep_fold cname ns (nodeStep cname g node)
        exact ⟨hext.1 _ hest.1, hext.1 _ hest.2.1, hext.2 _ hest.2.2.1,
          hext.2 _ hest.2.2.2⟩
      · exact ih (nodeStep cname g n0) node htail

/-- All keys a company configuration touches, present in a graph. -/
def TouchedIn (g : SupplyChainGraph) (c : Company) : Prop :=
  c.name ∈ g.nodeKeys ∧ ∀ node ∈ c.supply_chain_nodes,
    node.entity ∈ g.nodeKeys ∧ node.location ∈ g.nodeKeys ∧
    (node.location, node.entity) ∈ g.edgeKeys ∧
    (node.entity, c.name) ∈ g.edgeKeys

/-- TouchedIn survives key extension. -/
theorem touchedIn_mono {g g2 : SupplyChainGraph} {c : Company}
    (hext : KeysExtend g g2) (ht : TouchedIn g c) : TouchedIn g2 c := by
  refine ⟨hext.1 _ ht.1, ?_⟩
  intro node hmem
  obtain ⟨h1, h2, h3, h4⟩ := ht.2 node hmem
  exact ⟨hext.1 _ h1, hext.1 _ h2, hext.2 _ h3, hext.2 _ h4⟩

/-- addCompanyTopology extends the keys. -/
theorem keysExtend_addCompanyTopology (g : SupplyChainGraph) (c : Company) :
    KeysExtend g (addCompanyTopology g c) := by
  rw [addCompanyTopology_eq]
  exact keysExtend_trans (keysExtend_addNodeType g c.name "company")
    (keysExtend_nodeStep_fold c.name c.supply_chain_nodes _)

/-- After addCompanyTopology, every key of the company configuration
is present. -/
theorem touchedIn_addCompanyTopology (g : SupplyChainGraph) (c : Company) :
    TouchedIn (addCompanyTopology g c) c := by
  rw [addCompanyTopology_eq]
  constructor
  · exact (keysExtend_nodeStep_fold c.name c.supply_chain_nodes _).1 _
      (mem_addNodeType_self g c.name "company")
  · intro node hmem
    exact nodeStep_fold_establishes c.name c.supply_chain_nodes _ node hmem

/-- build_from_config extends the keys. -/
theorem keysExtend_build_from_config :
    ∀ (cs : List Company) (g : SupplyChainGraph),
      KeysExtend g (build_from_config g cs) := by
  intro cs
  induction cs with
  | nil => intro g; exact keysExtend_refl g
  | cons c0 cs ih =>
      intro g
      exact keysExtend_trans (keysExtend_addCompanyTopology g c0)
        (ih (addCompanyTopology g c0))

/-- After building from a configuration, every company of that
configuration has all its keys present. -/
theorem build_from_config_touched :
    ∀ (cs : List Company) (g : SupplyChainGraph), ∀ c ∈ cs,
      TouchedIn (build_from_config g cs) c := by
  intro cs
  induction cs with
  | nil => intro g c hmem; exact absurd hmem (List.not_mem_nil c)
  | cons c0 cs ih =>
      intro g c hmem
      rcases List.mem_cons.mp hmem with rfl | htail
      · exact touchedIn_mono (keysExtend_build_from_config cs _)
          (touchedIn_addCompanyTopology g c)
      · exact ih (addCompanyTopology g c0) c htail

/-- A per-node step whose four keys are already present leaves both
key lists unchanged. -/
theorem nodeStep_keys_of_touched (cname : String) (g : SupplyChainGraph)
    (node : SupplyNode) (h0 : cname ∈ g.nodeKeys)
    (h1 : node.entity ∈ g.nodeKeys) (h2 : node.location ∈ g.nodeKeys)
    (h3 : (node.location, node.entity) ∈ g.edgeKeys)
    (h4 : (node.entity, cname) ∈ g.edgeKeys) :
    (nodeStep cname g node).nodeKeys = g.nodeKeys ∧
    (nodeStep cname g node).edgeKeys = g.edgeKeys := by
  have e1n : (addNodeType g node.entity "supplier").nodeKeys = g.nodeKeys :=
    nodeKeys_addNodeType_mem g node.entity "supplier" h1
  have e1e : (addNodeType g node.entity "supplier").edgeKeys = g.edgeKeys :=
    edgeKeys_addNodeType g node.entity "supplier"
  have e2n : (addNodeType (addNodeType g node.entity "supplier")
      node.location "location").nodeKeys = g.nodeKeys := by
    rw [nodeKeys_addNodeType_mem _ node.location "location" (by rw [e1n]; exact h2)]
    exact e1n
  have e2e : (addNodeType (addNodeType g node.entity "supplier")
      node.location "location").edgeKeys = g.edgeKeys := by
    rw [edgeKeys_addNodeType]
    exact e1e
  have e3n : (add_edge (addNodeType (addNodeType g node.entity "supplier")
      node.location "location") node.location node.entity
      ("manufactures_at (" ++ node.type ++ ")")).nodeKeys = g.nodeKeys := by
    rw [nodeKeys_add_edge]
    rw [nodeKeys_ensureNode_mem _ node.entity (by
      rw [nodeKeys_ensureNode_mem _ node.location (by rw [e2n]; exact h2)]
      rw [e2n]
      exact h1)]
    rw [nodeKeys_ensureNode_mem _ node.location (by rw [e2n]; exact h2)]
    exact e2n
  have e3e : (add_edge (addNodeType (addNodeType g node.entity "supplier")
      node.location "location") node.location node.entity
      ("manufactures_at (" ++ node.type ++ ")")).edgeKeys = g.edgeKeys := by
    rw [edgeKeys_add_edge_mem _ node.location node.entity _ (by rw [e2e]; exact h3)]
    exact e2e
  constructor
  · show (add_edge _ node.entity cname "supplies").nodeKeys = g.nodeKeys
    rw [nodeKeys_add_edge]
    rw [nodeKeys_ensureNode_mem _ cname (by
      rw [nodeKeys_ensureNode_mem _ node.entity (by rw [e3n]; exact h1)]
      rw [e3n]
      exact h0)]
    rw [nodeKeys_ensureNode_mem _ node.entity (by rw [e3n]; exact h1)]
    exact e3n
  · show (add_edge _ node.entity cname "supplies").edgeKeys = g.edgeKeys
    rw [edgeKeys_add_edge_mem _ node.entity cname _ (by rw [e3e]; exact h4)]
    exact e3e

end SupplyChainGraph

namespace SupplyChainGraph

/-- A fold of per-node steps whose keys are all present leaves both
key lists unchanged. -/
theorem nodeStep_fold_keys_of_touched (cname : String) :
    ∀ (ns : List SupplyNode) (g : SupplyChainGraph),
      cname ∈ g.nodeKeys →
      (∀ node ∈ ns,
        node.entity ∈ g.nodeKeys ∧ node.location ∈ g.nodeKeys ∧
        (node.location, node.entity) ∈ g.edgeKeys ∧
        (node.entity, cname) ∈ g.edgeKeys) →
      (ns.foldl (nodeStep cname) g).nodeKeys = g.nodeKeys ∧
      (ns.foldl (nodeStep cname) g).edgeKeys = g.edgeKeys := by
  intro ns
  induction ns with
  | nil => intro g h0 hall; exact ⟨rfl, rfl⟩
  | cons n0 ns ih =>
      intro g h0 hall
      simp only [List.foldl_cons]
      obtain ⟨h1, h2, h3, h4⟩ := hall n0 (List.mem_cons_self n0 ns)
      obtain ⟨hn, he⟩ := nodeStep_keys_of_touched cname g n0 h0 h1 h2 h3 h4
      have ihres := ih (nodeStep cname g n0) (by rw [hn]; exact h0) (by
        intro node hmem
        obtain ⟨k1, k2, k3, k4⟩ := hall node (List.mem_cons_of_mem n0 hmem)
        rw [hn, he]
        exact ⟨k1, k2, k3, k4⟩)
      constructor
      · rw [ihres.1]
        exact hn
      · rw [ihres.2]
        exact he

/-- addCompanyTopology on a fully touched company leaves both key
lists unchanged. -/
theorem addCompanyTopology_keys_of_touched (g : SupplyChainGraph) (c : Company)
    (ht : TouchedIn g c) :
    (addCompanyTopology g c).nodeKeys = g.nodeKeys ∧
    (addCompanyTopology g c).edgeKeys = g.edgeKeys := by
  rw [addCompanyTopology_eq]
  have hn : (addNodeType g c.name "company").nodeKeys = g.nodeKeys :=
    nodeKeys_addNodeType_mem g c.name "company" ht.1
  have he : (addNodeType g c.name "company").edgeKeys = g.edgeKeys :=
    edgeKeys_addNodeType g c.name "company"
  have hres := nodeStep_fold_keys_of_touched c.name c.supply_chain_nodes
    (addNodeType g c.name "company") (by rw [hn]; exact ht.1) (by
      intro node hmem
      obtain ⟨k1, k2, k3, k4⟩ := ht.2 node hmem
      rw [hn, he]
      exact ⟨k1, k2, k3, k4⟩)
  constructor
  · rw [hres.1]
    exact hn
  · rw [hres.2]
    exact he

/-- Rebuilding an already fully touched configuration leaves both key
lists unchanged. -/
theorem build_keys_of_all_touched :
    ∀ (cs : List Company) (g : SupplyChainGraph),
      (∀ c ∈ cs, TouchedIn g c) →
      (build_from_config g cs).nodeKeys = g.nodeKeys ∧
      (build_from_config g cs).edgeKeys = g.edgeKeys := by
  intro cs
  induction cs with
  | nil => intro g hall; exact ⟨rfl, rfl⟩
  | cons c0 cs ih =>
      intro g hall
      have hstep := addCompanyTopology_keys_of_touched g c0
        (hall c0 (List.mem_cons_self c0 cs))
      have hih := ih (addCompanyTopology g c0) (by
        intro c hc
        have ht := hall c (List.mem_cons_of_mem c0 hc)
        simp only [TouchedIn, hstep.1, hstep.2]
        exact ht)
      have hcons : build_from_config g (c0 :: cs) =
          build_from_config (addCompanyTopology g c0) cs := rfl
      rw [hcons]
      constructor
      · rw [hih.1]
        exact hstep.1
      · rw [hih.2]
        exact hstep.2

/-- C9: addStaticTopology is idempotent at key level: building the
static topology a second time from the same company configuration
changes neither the node key list nor the edge key list, so the node
set and the edge set size after two calls equal those after one
call. -/
theorem C9_build_from_config_idempotent (companies : List Company) :
    (build_from_config (build_from_config empty companies) companies).nodeKeys
      = (build_from_config empty companies).nodeKeys ∧
    (build_from_config (build_from_config empty companies) companies).edgeKeys
      = (build_from_config empty companies).edgeKeys ∧
    (build_from_config (build_from_config empty companies) companies).edges.length
      = (build_from_config empty companies).edges.length := by
  have htouch : ∀ c ∈ companies,
      TouchedIn (build_from_config empty companies) c :=
    build_from_config_touched companies empty
  obtain ⟨h1, h2⟩ := build_keys_of_all_touched companies _ htouch
  refine ⟨h1, h2, ?_⟩
  have hlen := congrArg List.length h2
  simpa [edgeKeys] using hlen

end SupplyChainGraph

/-! ## Claims C5 and C6: fetch degradation and run isolation

Concrete pipeline fixtures: one fully configured company with one
relevant article, plus two lightweight companies for the three
company run scenario. -/

/-- The configured company of the concrete pipeline scenarios. -/
def c5Company : Company :=
  ⟨"Apple Inc", "AAPL", ["supply chain"],
   [⟨"TSMC", "Tainan", "semiconductor", [23, 120]⟩]⟩

/-- The article processed in the concrete pipeline scenarios. -/
def c5Article : Article :=
  ⟨"TSMC warns of chip disruptions", "Chip supply at risk",
   "https://example.com/a", "", "Reuters"⟩

/-- A company environment where every external call succeeds. -/
def c5EnvOk : CompanyEnv :=
  { news := .ok [c5Article]
    triage := fun _ => .response "YES"
    stock := .ok ⟨"AAPL", -21 / 5, "moderate"⟩
    weather := .ok ⟨"thunderstorm", "severe_weather"⟩
    analyst := fun _ => .response
      ⟨"RED", "High impact", "Correlated signals point to disruption.",
       ["m1", "m2", "m3"], 88⟩
    now := 0 }

/-- The zero starting state of a run. -/
def initState : RunState := ⟨Stats.init, DB.empty, SupplyChainGraph.empty⟩

/-- Counterexample to C5 as stated: when the news fetch fails, the
empty list is substituted but the run error counter is NOT
incremented — it stays 0 where the claim requires an increment — and
the company ends without an exception. -/
theorem C5_counterexample :
    (process_company c5Company
      { c5EnvOk with news := .error "connection reset" }
      initState).1.stats.errors = 0 ∧
    (process_company c5Company
      { c5EnvOk with news := .error "connection reset" }
      initState).2 = none :=
  ⟨rfl, rfl⟩

/-- C5 amended: the market and weather fetches are independently
wrapped — on failure the neutral record is substituted, the error
counter is incremented, and the rest of the company pipeline still
runs (in the concrete scenario with both failing, the article is
still analysed, stored and routed, with exactly 2 errors counted).
The news fetch instead catches its failure inside the sensor: the
empty list is substituted, the company ends normally, and the error
counter is NOT incremented. -/
theorem C5_fetch_isolation_amended :
    (∀ (c : Company) (env : CompanyEnv) (st : RunState) (msg : String),
      env.news = .error msg → process_company c env st = (st, none)) ∧
    (∀ (call : Except String StockData) (ticker : String) (stats : Stats)
        (msg : String), call = .error msg →
      safe_fetch_stock call ticker stats =
        (⟨ticker, 0, "unknown"⟩, { stats with errors := stats.errors + 1 })) ∧
    (∀ (call : Except String WeatherData) (stats : Stats) (msg : String),
      call = .error msg →
      safe_fetch_weather call stats =
        (⟨"unknown", "unknown"⟩, { stats with errors := stats.errors + 1 })) ∧
    (process_company c5Company
      { c5EnvOk with stock := .error "boom", weather := .error "storm api down" }
      initState).1.stats = ⟨1, 1, 1, 0, 1, 2⟩ ∧
    (process_company c5Company
      { c5EnvOk with stock := .error "boom", weather := .error "storm api down" }
      initState).2 = none := by
  refine ⟨?_, ?_, ?_, ?_, ?_⟩
  · intro c env st msg hn
    simp only [process_company, fetch_news, hn]
    simp
  · intro call ticker stats msg hc
    subst hc
    rfl
  · intro call stats msg hc
    subst hc
    rfl
  · rfl
  · rfl

/-- Witness for the amended C5 at concrete inputs. -/
theorem C5_fetch_isolation_amended_witness :
    process_company c5Company
      { c5EnvOk with news := .error "connection reset" } initState =
      (initState, none) ∧
    safe_fetch_stock (.error "boom") "AAPL" Stats.init =
      (⟨"AAPL", 0, "unknown"⟩,
       { Stats.init with errors := Stats.init.errors + 1 }) ∧
    safe_fetch_weather (.error "storm api down") Stats.init =
      (⟨"unknown", "unknown"⟩,
       { Stats.init with errors := Stats.init.errors + 1 }) :=
  ⟨C5_fetch_isolation_amended.1 c5Company
      { c5EnvOk with news := .error "connection reset" } initState
      "connection reset" rfl,
   C5_fetch_isolation_amended.2.1 (.error "boom") "AAPL" Stats.init "boom" rfl,
   C5_fetch_isolation_amended.2.2.1 (.error "storm api down") Stats.init
      "storm api down" rfl⟩

/-- Second company of the three company run: its stock fetch throws. -/
def c6CompanyB : Company := ⟨"Tesla Inc", "TSLA", [], []⟩

/-- Third company of the three company run. -/
def c6CompanyC : Company := ⟨"NVIDIA", "NVDA", [], []⟩

/-- The article of the second company. -/
def c6ArticleB : Article :=
  ⟨"Tesla faces parts shortage", "Parts delayed", "https://example.com/b", "",
   "AP"⟩

/-- The article of the third company. -/
def c6ArticleC : Article :=
  ⟨"NVIDIA supply constraints", "GPU supply tight", "https://example.com/c",
   "", "AP"⟩

/-- Environment of the second company: the stock fetch raises. -/
def c6EnvB : CompanyEnv :=
  { news := .ok [c6ArticleB]
    triage := fun _ => .response "YES"
    stock := .error "exception during stock fetch"
    weather := .ok ⟨"clear sky", "normal"⟩
    analyst := fun _ => .failure "timeout"
    now := 0 }

/-- Environment of the third company: everything succeeds. -/
def c6EnvC : CompanyEnv :=
  { c6EnvB with news := .ok [c6ArticleC], stock := .ok ⟨"NVDA", 1, "low"⟩ }

/-- The three companies of the run isolation scenario, the second of
which throws during its stock fetch. -/
def c6Items : List (Company × CompanyEnv) :=
  [(c5Company, c5EnvOk), (c6CompanyB, c6EnvB), (c6CompanyC, c6EnvC)]

/-- A state whose store already holds the scenario headline from 25
hours before the run, so that storing it again raises
IntegrityError out of the company pipeline. -/
def c6FailState : RunState := ⟨Stats.init, c1Db1, SupplyChainGraph.empty⟩

/-- An environment whose clock sits 25 hours after the seeded
event. -/
def c6FailEnv : CompanyEnv := { c5EnvOk with now := 25 * 3600 }

/-- C6: the run loop is total and isolates companies: the loop always
continues past any company, an uncaught exception from one company
pipeline adds exactly one error and the run goes on, a clean company
contributes its state unchanged; in the concrete three company
scenario where the second company throws during its stock fetch, the
summary shows exactly 1 error and the first and third companies each
store exactly one event. -/
theorem C6_run_isolation :
    (∀ (pre post : List (Company × CompanyEnv)) (x : Company × CompanyEnv)
        (st : RunState),
      run_loop (pre ++ x :: post) st =
        run_loop post (handle_company (run_loop pre st) x)) ∧
    (∀ (item : Company × CompanyEnv) (st : RunState),
      (process_company item.1 item.2 st).2.isSome = true →
      handle_company st item =
        { (process_company item.1 item.2 st).1 with
          stats := { (process_company item.1 item.2 st).1.stats with
            errors := (process_company item.1 item.2 st).1.stats.errors + 1 } }) ∧
    (∀ (item : Company × CompanyEnv) (st : RunState),
      (process_company item.1 item.2 st).2 = none →
      handle_company st item = (process_company item.1 item.2 st).1) ∧
    (run c6Items initState).stats = ⟨3, 3, 3, 0, 1, 1⟩ ∧
    ((run c6Items initState).db.events.filter
      (fun e => e.company_name == "Apple Inc")).length = 1 ∧
    ((run c6Items initState).db.events.filter
      (fun e => e.company_name == "NVIDIA")).length = 1 := by
  refine ⟨?_, ?_, ?_, ?_, ?_, ?_⟩
  · intro pre post x st
    simp only [run_loop, List.foldl_append, List.foldl_cons]
  · intro item st hsome
    rcases hp : process_company item.1 item.2 st with ⟨st2, opt⟩
    cases opt with
    | none =>
        rw [hp] at hsome
        simp at hsome
    | some e =>
        simp only [handle_company, hp]
  · intro item st hnone
    rcases hp : process_company item.1 item.2 st with ⟨st2, opt⟩
    cases opt with
    | none => simp only [handle_company, hp]
    | some e =>
        rw [hp] at hnone
        simp at hnone
  · rfl
  · rfl
  · rfl

/-- Witness for C6 at concrete inputs: a company whose store raises
IntegrityError is counted as exactly one error, and a clean company
passes its state through unchanged. -/
theorem C6_run_isolation_witness :
    handle_company c6FailState (c5Company, c6FailEnv) =
      { (process_company c5Company c6FailEnv c6FailState).1 with
        stats := { (process_company c5Company c6FailEnv c6FailState).1.stats with
          errors :=
            (process_company c5Company c6FailEnv c6FailState).1.stats.errors
              + 1 } } ∧
    handle_company initState (c5Company, c5EnvOk) =
      (process_company c5Company c5EnvOk initState).1 :=
  ⟨C6_run_isolation.2.1 (c5Company, c6FailEnv) c6FailState (by decide),
   C6_run_isolation.2.2.1 (c5Company, c5EnvOk) initState (by decide)⟩

end Khabar
